import Mathlib

/-!
Shallow embedding of the class-based simulation core of the `life`
repository (files `src/types/index.ts` variant with per-kind configs,
`src/simulation/grid.ts`, `src/simulation/entities.ts`,
`src/simulation/engine.ts`).  JavaScript numbers that only ever hold
integers are modelled as `Int`/`Nat`; the values compared against
`Math.random()` (which yields a rational in `[0,1)`) are modelled as `ℚ`.
`Math.random()` itself is modelled as an explicit stream of rational
draws, consumed in exactly the order the source consumes them; an
exhausted stream keeps drawing `0`, a legal value of `Math.random()`.
-/

set_option maxRecDepth 8000

namespace Life

/-- Stream of `Math.random()` results, consumed left to right. -/
abbrev RandStream := List ℚ

/-- Pop the next `Math.random()` draw (an exhausted stream draws `0`). -/
def nextDraw : RandStream → ℚ × RandStream
  | [] => (0, [])
  | q :: rest => (q, rest)

/-- `Math.floor(q * n)` for a draw `q`, used to index an `n`-element choice. -/
def pickIndex (q : ℚ) (n : Nat) : Nat := (⌊q * (n : ℚ)⌋).toNat

/-- A stream whose every draw is a legal `Math.random()` result. -/
def ValidStream (rs : RandStream) : Prop := ∀ q ∈ rs, 0 ≤ q ∧ q < 1

/-- Entity type stored per cell: `0 = empty, 1 = grass, 2 = sheep, 3 = wolf`. -/
inductive EntityType
  | empty
  | grass
  | sheep
  | wolf
  deriving DecidableEq

/-- `GrassEntity` of `types/index.ts`. -/
structure GrassEntity where
  x : Int
  y : Int
  age : Nat
  deriving DecidableEq

/-- `SheepEntity` of `types/index.ts`. -/
structure SheepEntity where
  x : Int
  y : Int
  age : Nat
  foodEaten : Nat
  ticksSinceLastMeal : Nat
  deriving DecidableEq

/-- `WolfEntity` of `types/index.ts`. -/
structure WolfEntity where
  x : Int
  y : Int
  age : Nat
  foodEaten : Nat
  ticksSinceLastMeal : Nat
  deriving DecidableEq

/-- The tagged union `Entity` (its `null` case is `Option.none` at use sites). -/
inductive Entity
  | grassE : GrassEntity → Entity
  | sheepE : SheepEntity → Entity
  | wolfE : WolfEntity → Entity
  deriving DecidableEq

/-- The `type` field of an entity record. -/
def entityType : Entity → EntityType
  | .grassE _ => .grass
  | .sheepE _ => .sheep
  | .wolfE _ => .wolf

/-- X coordinate field of an entity record. -/
def entityX : Entity → Int
  | .grassE e => e.x
  | .sheepE e => e.x
  | .wolfE e => e.x

/-- Y coordinate field of an entity record. -/
def entityY : Entity → Int
  | .grassE e => e.y
  | .sheepE e => e.y
  | .wolfE e => e.y

/-- `GrassConfig`. -/
structure GrassConfig where
  lifeExpectancy : ℚ
  initialCount : Nat
  spreadRate : ℚ
  spreadRadius : Nat

/-- `SheepConfig`. -/
structure SheepConfig where
  lifeExpectancy : ℚ
  initialCount : Nat
  starvationTime : Nat
  breedThreshold : Nat
  grazingRadius : Nat

/-- `WolfConfig`. -/
structure WolfConfig where
  lifeExpectancy : ℚ
  initialCount : Nat
  starvationTime : Nat
  breedThreshold : Nat
  huntingRadius : Nat

/-- `SimulationConfig`. -/
structure SimulationConfig where
  grass : GrassConfig
  sheep : SheepConfig
  wolf : WolfConfig
  gameSpeed : ℚ

/-- `GRID_WIDTH` (the grid is a fixed 255 by 255). -/
def GRID_WIDTH : Int := 255

/-- `GRID_HEIGHT`. -/
def GRID_HEIGHT : Int := 255

/-- `GRID_SIZE = GRID_WIDTH * GRID_HEIGHT` as the count of cells. -/
def GRID_SIZE : Nat := 255 * 255

/-- The 8 movement directions, in the source's `DIRECTIONS` order. -/
def DIRECTIONS : List (Int × Int) :=
  [(-1, -1), (0, -1), (1, -1), (-1, 0), (1, 0), (-1, 1), (0, 1), (1, 1)]

/-- Position key used by the entity map (the source's string key `"x,y"`). -/
abbrev Pos := Int × Int

/-- Lookup in the entity map (JavaScript `Map.get`). -/
def mapGet (k : Pos) : List (Pos × Entity) → Option Entity
  | [] => none
  | (k', v) :: rest => if k' = k then some v else mapGet k rest

/-- Insert/overwrite in the entity map (JavaScript `Map.set`): an existing
key keeps its place in insertion order, a new key is appended. -/
def mapSet (k : Pos) (v : Entity) : List (Pos × Entity) → List (Pos × Entity)
  | [] => [(k, v)]
  | (k', v') :: rest => if k' = k then (k, v) :: rest else (k', v') :: mapSet k v rest

/-- Remove from the entity map (JavaScript `Map.delete`). -/
def mapDelete (k : Pos) : List (Pos × Entity) → List (Pos × Entity)
  | [] => []
  | (k', v') :: rest => if k' = k then rest else (k', v') :: mapDelete k rest

/-- The `Grid`: a dense per-cell type indicator (the `Uint8Array`, modelled
as a function from the flat index) plus the keyed entity map. -/
structure Grid where
  typeGrid : Int → EntityType
  entities : List (Pos × Entity)

/-- A freshly constructed (all-empty) grid; also the result of `Grid.reset`. -/
def emptyGrid : Grid where
  typeGrid := fun _ => .empty
  entities := []

/-- `toIndex`: flat index of a cell. -/
def toIndex (x y : Int) : Int := y * GRID_WIDTH + x

/-- `isValidPosition`: bounds check. -/
def isValidPosition (x y : Int) : Bool :=
  0 ≤ x && x < GRID_WIDTH && 0 ≤ y && y < GRID_HEIGHT

/-- `Grid.getType`: `EMPTY` for out-of-bounds coordinates. -/
def Grid.getType (g : Grid) (x y : Int) : EntityType :=
  if isValidPosition x y then g.typeGrid (toIndex x y) else .empty

/-- `Grid.get`: `null` (`none`) when empty or out of bounds. -/
def Grid.get (g : Grid) (x y : Int) : Option Entity :=
  if isValidPosition x y then mapGet (x, y) g.entities else none

/-- `Grid.set`: upsert (`some e`) or clear (`none`); keeps the type
indicator and the record map in step; no-op out of bounds. -/
def Grid.set (g : Grid) (x y : Int) (e : Option Entity) : Grid :=
  if isValidPosition x y then
    match e with
    | none =>
        { typeGrid := fun i => if i = toIndex x y then .empty else g.typeGrid i
          entities := mapDelete (x, y) g.entities }
    | some ent =>
        { typeGrid := fun i => if i = toIndex x y then entityType ent else g.typeGrid i
          entities := mapSet (x, y) ent g.entities }
  else g

/-- `Grid.clear`, equivalent to `set(x, y, null)`. -/
def Grid.clear (g : Grid) (x y : Int) : Grid := g.set x y none

/-- `Grid.reset`: clears every cell and the record map. -/
def Grid.resetAll (_g : Grid) : Grid := emptyGrid

/-- `getNeighborPositions`: the in-bounds cells among the 8 neighbors,
in `DIRECTIONS` order. -/
def getNeighborPositions (x y : Int) : List Pos :=
  DIRECTIONS.filterMap fun d =>
    let nx := x + d.1
    let ny := y + d.2
    if isValidPosition nx ny then some (nx, ny) else none

/-- `getEmptyNeighbors` (with its default `useDiagonals = true`). -/
def getEmptyNeighbors (g : Grid) (x y : Int) : List Pos :=
  (getNeighborPositions x y).filter fun p => g.getType p.1 p.2 = .empty

/-- `PopulationCounts`. -/
structure PopulationCounts where
  grass : Nat
  sheep : Nat
  wolves : Nat
  deriving DecidableEq

/-- One step of the `getCounts` counting loop. -/
def countsBump (c : PopulationCounts) : EntityType → PopulationCounts
  | .grass => { c with grass := c.grass + 1 }
  | .sheep => { c with sheep := c.sheep + 1 }
  | .wolf => { c with wolves := c.wolves + 1 }
  | .empty => c

/-- The counting loop of `getCounts` over flat indices `0 .. n-1`. -/
def getCountsAux (g : Grid) : Nat → PopulationCounts
  | 0 => ⟨0, 0, 0⟩
  | n + 1 => countsBump (getCountsAux g n) (g.typeGrid (n : Int))

/-- `Grid.getCounts`: full scan of the type indicator. -/
def Grid.getCounts (g : Grid) : PopulationCounts := getCountsAux g GRID_SIZE



/-- `getEntitiesOfType(GRASS)` as typed records, in map insertion order. -/
def Grid.getGrassEntities (g : Grid) : List GrassEntity :=
  g.entities.filterMap fun kv =>
    match kv.2 with
    | .grassE e => some e
    | _ => none

/-- `getEntitiesOfType(SHEEP)` as typed records, in map insertion order. -/
def Grid.getSheepEntities (g : Grid) : List SheepEntity :=
  g.entities.filterMap fun kv =>
    match kv.2 with
    | .sheepE e => some e
    | _ => none

/-- `getEntitiesOfType(WOLF)` as typed records, in map insertion order. -/
def Grid.getWolfEntities (g : Grid) : List WolfEntity :=
  g.entities.filterMap fun kv =>
    match kv.2 with
    | .wolfE e => some e
    | _ => none

/-- The box-scan offsets of `findClosestInRadius`/`findInRadius`: `dy` in the
outer loop from `-r` to `r`, `dx` in the inner loop from `-r` to `r`. -/
def scanOffsets (r : Nat) : List (Int × Int) :=
  (((List.range (2 * r + 1)).map fun (i : Nat) => (i : Int) - (r : Int)).flatMap fun dy =>
    ((List.range (2 * r + 1)).map fun (i : Nat) => (i : Int) - (r : Int)).map fun dx => (dx, dy))

/-- One inner-loop step of `findClosestInRadius`. -/
def closestStep (g : Grid) (x y : Int) (r : Nat) (t : EntityType)
    (closest : Option (Entity × Nat)) (d : Int × Int) : Option (Entity × Nat) :=
  let nx := x + d.1
  let ny := y + d.2
  if !isValidPosition nx ny then closest
  else if d.1 = 0 ∧ d.2 = 0 then closest
  else
    let distance := d.1.natAbs + d.2.natAbs
    if r < distance then closest
    else if g.getType nx ny = t then
      match closest with
      | none =>
        match g.get nx ny with
        | some e => some (e, distance)
        | none => none
      | some c =>
        if distance < c.2 then
          match g.get nx ny with
          | some e => some (e, distance)
          | none => closest
        else closest
    else closest

/-- `Grid.findClosestInRadius`: closest entity of a type by Manhattan
distance, center excluded, ties broken by scan order. -/
def Grid.findClosestInRadius (g : Grid) (x y : Int) (r : Nat) (t : EntityType) :
    Option (Entity × Nat) :=
  (scanOffsets r).foldl (closestStep g x y r t) none

/-- Attempt loop of `getRandomEmptyPosition` (two draws per attempt). -/
def getRandomEmptyPositionAux (g : Grid) : Nat → RandStream → Option Pos × RandStream
  | 0, rs => (none, rs)
  | n + 1, rs =>
    let (qx, rs) := nextDraw rs
    let (qy, rs) := nextDraw rs
    let x : Int := pickIndex qx 255
    let y : Int := pickIndex qy 255
    if g.getType x y = .empty then (some (x, y), rs)
    else getRandomEmptyPositionAux g n rs

/-- `Grid.getRandomEmptyPosition` with its default `maxAttempts = 100`. -/
def Grid.getRandomEmptyPosition (g : Grid) (rs : RandStream) : Option Pos × RandStream :=
  getRandomEmptyPositionAux g 100 rs

attribute [irreducible] Grid.getRandomEmptyPosition

/-- `Grid.getRandomEmptyNeighbor`: uniform pick among the empty neighbors,
`null` when there are none (no draw is consumed then). -/
def Grid.getRandomEmptyNeighbor (g : Grid) (x y : Int) (rs : RandStream) :
    Option Pos × RandStream :=
  let emptyNeighbors := getEmptyNeighbors g x y
  if emptyNeighbors.length = 0 then (none, rs)
  else
    let (q, rs) := nextDraw rs
    (some (emptyNeighbors.getD (pickIndex q emptyNeighbors.length) (0, 0)), rs)

/-- Rejection-sampling loop of `getRandomEmptyInRadius`.  `maxDy` is
`radius - |dx|`; the source computes it with exact JavaScript subtraction
and a legal draw keeps `|dx| ≤ radius`, so the `Nat` truncation here agrees
with the source for every legal stream. -/
def getRandomEmptyInRadiusAux (g : Grid) (cx cy : Int) (r : Nat) :
    Nat → RandStream → Option Pos × RandStream
  | 0, rs => (none, rs)
  | n + 1, rs =>
    let (q1, rs) := nextDraw rs
    let dx : Int := (pickIndex q1 (2 * r + 1) : Int) - (r : Int)
    let maxDy : Nat := r - dx.natAbs
    let (q2, rs) := nextDraw rs
    let dy : Int := (pickIndex q2 (2 * maxDy + 1) : Int) - (maxDy : Int)
    if dx = 0 ∧ dy = 0 then getRandomEmptyInRadiusAux g cx cy r n rs
    else
      let nx := cx + dx
      let ny := cy + dy
      if isValidPosition nx ny ∧ g.getType nx ny = .empty then (some (nx, ny), rs)
      else getRandomEmptyInRadiusAux g cx cy r n rs

/-- `Grid.getRandomEmptyInRadius`: neighbor fallback at radius 1 or less,
else up to `2r²` rejection samples in the Manhattan diamond. -/
def Grid.getRandomEmptyInRadius (g : Grid) (cx cy : Int) (r : Nat) (rs : RandStream) :
    Option Pos × RandStream :=
  if r ≤ 1 then g.getRandomEmptyNeighbor cx cy rs
  else getRandomEmptyInRadiusAux g cx cy r (r * r * 2) rs

/-- `createGrass`. -/
def createGrass (x y : Int) : GrassEntity := ⟨x, y, 0⟩

/-- `createSheep`. -/
def createSheep (x y : Int) : SheepEntity := ⟨x, y, 0, 0, 0⟩

/-- `createWolf`. -/
def createWolf (x y : Int) : WolfEntity := ⟨x, y, 0, 0, 0⟩

/-- `shouldDieOfOldAge`: no chance below 80% of life expectancy, certain
death at or past 120%, a linearly rising chance in between (the draw is
consumed only in the middle window, as in the source). -/
def shouldDieOfOldAge (age lifeExpectancy : ℚ) (rs : RandStream) : Bool × RandStream :=
  let minAge := lifeExpectancy * (4 / 5)
  if age < minAge then (false, rs)
  else
    let maxAge := lifeExpectancy * (6 / 5)
    if maxAge ≤ age then (true, rs)
    else
      let chance := (age - minAge) / (maxAge - minAge)
      let (q, rs) := nextDraw rs
      (decide (q < chance), rs)

/-- `GrassUpdateResult`. -/
structure GrassUpdateResult where
  alive : Bool
  spawn : Option GrassEntity
  deriving DecidableEq

/-- `SheepUpdateResult`. -/
structure SheepUpdateResult where
  alive : Bool
  spawn : Option SheepEntity
  ateGrassAt : Option Pos
  deriving DecidableEq

/-- `WolfUpdateResult`. -/
structure WolfUpdateResult where
  alive : Bool
  spawn : Option WolfEntity
  ateSheepAt : Option Pos
  deriving DecidableEq

/-- `updateGrass`; the in-place mutation of the record is returned as the
first component. -/
def updateGrass (grass : GrassEntity) (g : Grid) (config : SimulationConfig)
    (rs : RandStream) : GrassEntity × GrassUpdateResult × RandStream :=
  let grass := { grass with age := grass.age + 1 }
  let (dead, rs) := shouldDieOfOldAge (grass.age : ℚ) config.grass.lifeExpectancy rs
  if dead then (grass, ⟨false, none⟩, rs)
  else
    let (q, rs) := nextDraw rs
    if q * 100 < config.grass.spreadRate then
      let (emptyCell, rs) := g.getRandomEmptyInRadius grass.x grass.y config.grass.spreadRadius rs
      match emptyCell with
      | some c => (grass, ⟨true, some (createGrass c.1 c.2)⟩, rs)
      | none => (grass, ⟨true, none⟩, rs)
    else (grass, ⟨true, none⟩, rs)

/-- `updateSheep`; the mutated record is the first component. -/
def updateSheep (sheep : SheepEntity) (g : Grid) (config : SimulationConfig)
    (rs : RandStream) : SheepEntity × SheepUpdateResult × RandStream :=
  let sheep := { sheep with age := sheep.age + 1,
                            ticksSinceLastMeal := sheep.ticksSinceLastMeal + 1 }
  let (dead, rs) := shouldDieOfOldAge (sheep.age : ℚ) config.sheep.lifeExpectancy rs
  if dead then (sheep, ⟨false, none, none⟩, rs)
  else if config.sheep.starvationTime ≤ sheep.ticksSinceLastMeal then
    (sheep, ⟨false, none, none⟩, rs)
  else
    let neighbors := getNeighborPositions sheep.x sheep.y
    let grassNeighbors := neighbors.filter fun p => g.getType p.1 p.2 == .grass
    let emptyNeighbors := neighbors.filter fun p => g.getType p.1 p.2 == .empty
    let oldX := sheep.x
    let oldY := sheep.y
    if 0 < grassNeighbors.length then
      let (q, rs) := nextDraw rs
      let target := grassNeighbors.getD (pickIndex q grassNeighbors.length) (0, 0)
      let sheep := { sheep with x := target.1, y := target.2,
                                foodEaten := sheep.foodEaten + 1, ticksSinceLastMeal := 0 }
      let ateGrassAt : Option Pos := some target
      if config.sheep.breedThreshold ≤ sheep.foodEaten then
        let sheep := { sheep with foodEaten := 0 }
        let (spawnPos, rs) :=
          if g.getType oldX oldY = .empty then ((some ((oldX, oldY) : Pos) : Option Pos), rs)
          else g.getRandomEmptyNeighbor sheep.x sheep.y rs
        match spawnPos with
        | some p => (sheep, ⟨true, some (createSheep p.1 p.2), ateGrassAt⟩, rs)
        | none => (sheep, ⟨true, none, ateGrassAt⟩, rs)
      else (sheep, ⟨true, none, ateGrassAt⟩, rs)
    else
      match g.findClosestInRadius sheep.x sheep.y config.sheep.grazingRadius .grass with
      | some closestGrass =>
        let dx := (entityX closestGrass.1 - sheep.x).sign
        let dy := (entityY closestGrass.1 - sheep.y).sign
        let newX := sheep.x + dx
        let newY := sheep.y + dy
        if isValidPosition newX newY then
          let targetType := g.getType newX newY
          if targetType = .grass then
            let sheep := { sheep with x := newX, y := newY,
                                      foodEaten := sheep.foodEaten + 1,
                                      ticksSinceLastMeal := 0 }
            let ateGrassAt : Option Pos := some (newX, newY)
            if config.sheep.breedThreshold ≤ sheep.foodEaten then
              let sheep := { sheep with foodEaten := 0 }
              let (spawnPos, rs) :=
                if g.getType oldX oldY = .empty then ((some ((oldX, oldY) : Pos) : Option Pos), rs)
                else g.getRandomEmptyNeighbor sheep.x sheep.y rs
              match spawnPos with
              | some p => (sheep, ⟨true, some (createSheep p.1 p.2), ateGrassAt⟩, rs)
              | none => (sheep, ⟨true, none, ateGrassAt⟩, rs)
            else (sheep, ⟨true, none, ateGrassAt⟩, rs)
          else if targetType = .empty then
            ({ sheep with x := newX, y := newY }, ⟨true, none, none⟩, rs)
          else (sheep, ⟨true, none, none⟩, rs)
        else (sheep, ⟨true, none, none⟩, rs)
      | none =>
        if 0 < emptyNeighbors.length then
          let (q, rs) := nextDraw rs
          let target := emptyNeighbors.getD (pickIndex q emptyNeighbors.length) (0, 0)
          ({ sheep with x := target.1, y := target.2 }, ⟨true, none, none⟩, rs)
        else (sheep, ⟨true, none, none⟩, rs)

/-- `updateWolf`; the mutated record is the first component. -/
def updateWolf (wolf : WolfEntity) (g : Grid) (config : SimulationConfig)
    (rs : RandStream) : WolfEntity × WolfUpdateResult × RandStream :=
  let wolf := { wolf with age := wolf.age + 1,
                          ticksSinceLastMeal := wolf.ticksSinceLastMeal + 1 }
  let (dead, rs) := shouldDieOfOldAge (wolf.age : ℚ) config.wolf.lifeExpectancy rs
  if dead then (wolf, ⟨false, none, none⟩, rs)
  else if config.wolf.starvationTime ≤ wolf.ticksSinceLastMeal then
    (wolf, ⟨false, none, none⟩, rs)
  else
    let oldX := wolf.x
    let oldY := wolf.y
    match g.findClosestInRadius wolf.x wolf.y config.wolf.huntingRadius .sheep with
    | some closestSheep =>
      let dx := (entityX closestSheep.1 - wolf.x).sign
      let dy := (entityY closestSheep.1 - wolf.y).sign
      let newX := wolf.x + dx
      let newY := wolf.y + dy
      if isValidPosition newX newY then
        let targetType := g.getType newX newY
        if targetType = .sheep then
          let wolf := { wolf with x := newX, y := newY,
                                  foodEaten := wolf.foodEaten + 1, ticksSinceLastMeal := 0 }
          let ateSheepAt : Option Pos := some (newX, newY)
          if config.wolf.breedThreshold ≤ wolf.foodEaten then
            let wolf := { wolf with foodEaten := 0 }
            let (spawnPos, rs) :=
              if g.getType oldX oldY = .empty then ((some ((oldX, oldY) : Pos) : Option Pos), rs)
              else g.getRandomEmptyNeighbor wolf.x wolf.y rs
            match spawnPos with
            | some p => (wolf, ⟨true, some (createWolf p.1 p.2), ateSheepAt⟩, rs)
            | none => (wolf, ⟨true, none, ateSheepAt⟩, rs)
          else (wolf, ⟨true, none, ateSheepAt⟩, rs)
        else if targetType = .empty ∨ targetType = .grass then
          ({ wolf with x := newX, y := newY }, ⟨true, none, none⟩, rs)
        else (wolf, ⟨true, none, none⟩, rs)
      else (wolf, ⟨true, none, none⟩, rs)
    | none =>
      let neighbors := getNeighborPositions wolf.x wolf.y
      let validMoves := neighbors.filter fun p =>
        let t := g.getType p.1 p.2
        t == .empty || t == .grass || t == .sheep
      if 0 < validMoves.length then
        let (q, rs) := nextDraw rs
        let target := validMoves.getD (pickIndex q validMoves.length) (0, 0)
        if g.getType target.1 target.2 = .sheep then
          let wolf := { wolf with x := target.1, y := target.2,
                                  foodEaten := wolf.foodEaten + 1, ticksSinceLastMeal := 0 }
          let ateSheepAt : Option Pos := some target
          if config.wolf.breedThreshold ≤ wolf.foodEaten then
            let wolf := { wolf with foodEaten := 0 }
            let (spawnPos, rs) :=
              if g.getType oldX oldY = .empty then ((some ((oldX, oldY) : Pos) : Option Pos), rs)
              else g.getRandomEmptyNeighbor wolf.x wolf.y rs
            match spawnPos with
            | some p => (wolf, ⟨true, some (createWolf p.1 p.2), ateSheepAt⟩, rs)
            | none => (wolf, ⟨true, none, ateSheepAt⟩, rs)
          else (wolf, ⟨true, none, ateSheepAt⟩, rs)
        else ({ wolf with x := target.1, y := target.2 }, ⟨true, none, none⟩, rs)
      else (wolf, ⟨true, none, none⟩, rs)

/-- One of the three seeding loops of `seedPopulation` (they differ only in
the factory used). -/
def seedLoop (create : Int → Int → Entity) : Nat → Grid → RandStream → Grid × RandStream
  | 0, g, rs => (g, rs)
  | n + 1, g, rs =>
    let (pos, rs) := g.getRandomEmptyPosition rs
    match pos with
    | some p => seedLoop create n (g.set p.1 p.2 (some (create p.1 p.2))) rs
    | none => seedLoop create n g rs

/-- `seedPopulation`: reset, then place grass, sheep and wolves in turn. -/
def seedPopulation (g : Grid) (config : SimulationConfig) (rs : RandStream) :
    Grid × RandStream :=
  let g := g.resetAll
  let (g, rs) := seedLoop (fun x y => .grassE (createGrass x y)) config.grass.initialCount g rs
  let (g, rs) := seedLoop (fun x y => .sheepE (createSheep x y)) config.sheep.initialCount g rs
  seedLoop (fun x y => .wolfE (createWolf x y)) config.wolf.initialCount g rs

/-- Which population went extinct. -/
inductive ExtinctKind
  | grass
  | sheep
  | wolves
  deriving DecidableEq

/-- `PopulationDataPoint`. -/
structure PopulationDataPoint where
  tick : Nat
  grass : Nat
  sheep : Nat
  wolves : Nat
  deriving DecidableEq

/-- `MAX_HISTORY_LENGTH`. -/
def MAX_HISTORY_LENGTH : Nat := 500

/-- `HISTORY_INTERVAL`. -/
def HISTORY_INTERVAL : Nat := 1

/-- The state held by a `SimulationEngine` instance. -/
structure EngineState where
  grid : Grid
  config : SimulationConfig
  tick : Nat
  isRunning : Bool
  population : PopulationCounts
  history : List PopulationDataPoint
  isGameOver : Bool
  extinctPopulation : Option ExtinctKind

/-- The engine constructor. -/
def mkEngine (config : SimulationConfig) : EngineState where
  grid := emptyGrid
  config := config
  tick := 0
  isRunning := false
  population := ⟨0, 0, 0⟩
  history := []
  isGameOver := false
  extinctPopulation := none

/-- `updatePopulationCounts`. -/
def updateCounts (s : EngineState) : EngineState :=
  { s with population := s.grid.getCounts }

/-- `recordHistory`: append a data point, drop the oldest past the cap. -/
def recordHistory (s : EngineState) : EngineState :=
  let h := s.history ++ [⟨s.tick, s.population.grass, s.population.sheep, s.population.wolves⟩]
  { s with history := if MAX_HISTORY_LENGTH < h.length then h.tail else h }

/-- The engine method `initialize()`. -/
def initEngine (s : EngineState) (rs : RandStream) : EngineState × RandStream :=
  let (g, rs) := seedPopulation s.grid s.config rs
  let s := { s with isGameOver := false, extinctPopulation := none, grid := g,
                    tick := 0, history := [] }
  (recordHistory (updateCounts s), rs)

/-- The engine method `reset(config?)`. -/
def resetEngine (s : EngineState) (config : Option SimulationConfig) (rs : RandStream) :
    EngineState × RandStream :=
  initEngine { s with config := config.getD s.config, isRunning := false } rs

/-- `start()`. -/
def startEngine (s : EngineState) : EngineState := { s with isRunning := true }

/-- `pause()`. -/
def pauseEngine (s : EngineState) : EngineState := { s with isRunning := false }

/-- `togglePause()`. -/
def togglePause (s : EngineState) : EngineState := { s with isRunning := !s.isRunning }

/-- `setGameSpeed(speed)`. -/
def setGameSpeed (s : EngineState) (speed : ℚ) : EngineState :=
  { s with config := { s.config with gameSpeed := speed } }

/-- `hasEnded()`. -/
def hasEnded (s : EngineState) : Bool := s.isGameOver

/-- `getExtinctPopulation()`. -/
def getExtinctPopulation (s : EngineState) : Option ExtinctKind := s.extinctPopulation

/-- `getPopulationCounts()`. -/
def getPopulationCounts (s : EngineState) : PopulationCounts := s.population

/-- `checkExtinction`: grass first, then sheep, then wolves. -/
def checkExtinction (s : EngineState) : EngineState :=
  if s.population.grass = 0 then
    { s with isGameOver := true, extinctPopulation := some .grass, isRunning := false }
  else if s.population.sheep = 0 then
    { s with isGameOver := true, extinctPopulation := some .sheep, isRunning := false }
  else if s.population.wolves = 0 then
    { s with isGameOver := true, extinctPopulation := some .wolves, isRunning := false }
  else s

/-- The grass-processing loop body of `tick()`. -/
def grassPhaseStep (config : SimulationConfig)
    (acc : Grid × List GrassEntity × RandStream) (ge : GrassEntity) :
    Grid × List GrassEntity × RandStream :=
  let (g, ng, rs) := acc
  let (ge', result, rs) := updateGrass ge g config rs
  if !result.alive then (g.clear ge'.x ge'.y, ng, rs)
  else
    (g.set ge'.x ge'.y (some (.grassE ge')),
     (match result.spawn with
      | some sp => ng ++ [sp]
      | none => ng), rs)

/-- Commit of queued grass spawns: only into still-empty cells. -/
def commitGrassSpawns (g : Grid) (spawns : List GrassEntity) : Grid :=
  spawns.foldl
    (fun g sp => if g.getType sp.x sp.y = .empty then g.set sp.x sp.y (some (.grassE sp)) else g) g

/-- The sheep-processing loop body of `tick()` (skip set, clear-old,
wolf-capture guard, spawn queue). -/
def sheepPhaseStep (config : SimulationConfig)
    (acc : Grid × List SheepEntity × List Pos × RandStream) (se : SheepEntity) :
    Grid × List SheepEntity × List Pos × RandStream :=
  let (g, ns, processed, rs) := acc
  if ((se.x, se.y) : Pos) ∈ processed then acc
  else
    let oldX := se.x
    let oldY := se.y
    let (se', result, rs) := updateSheep se g config rs
    let g := if !result.alive ∨ se'.x ≠ oldX ∨ se'.y ≠ oldY then g.clear oldX oldY else g
    if !result.alive then (g, ns, processed, rs)
    else
      let gp :=
        if g.getType se'.x se'.y ≠ .wolf then
          (g.set se'.x se'.y (some (.sheepE se')), processed ++ [((se'.x, se'.y) : Pos)])
        else (g, processed)
      (gp.1,
       (match result.spawn with
        | some sp => ns ++ [sp]
        | none => ns), gp.2, rs)

/-- Commit of queued newborn sheep: only into still-empty cells. -/
def commitSheepSpawns (g : Grid) (spawns : List SheepEntity) : Grid :=
  spawns.foldl
    (fun g sp => if g.getType sp.x sp.y = .empty then g.set sp.x sp.y (some (.sheepE sp)) else g) g

/-- The wolf-processing loop body of `tick()`. -/
def wolfPhaseStep (config : SimulationConfig)
    (acc : Grid × List WolfEntity × RandStream) (we : WolfEntity) :
    Grid × List WolfEntity × RandStream :=
  let (g, nw, rs) := acc
  let oldX := we.x
  let oldY := we.y
  let (we', result, rs) := updateWolf we g config rs
  let g := if !result.alive ∨ we'.x ≠ oldX ∨ we'.y ≠ oldY then g.clear oldX oldY else g
  if !result.alive then (g, nw, rs)
  else
    (g.set we'.x we'.y (some (.wolfE we')),
     (match result.spawn with
      | some sp => nw ++ [sp]
      | none => nw), rs)

/-- Commit of queued newborn wolves: only into still-empty cells. -/
def commitWolfSpawns (g : Grid) (spawns : List WolfEntity) : Grid :=
  spawns.foldl
    (fun g sp => if g.getType sp.x sp.y = .empty then g.set sp.x sp.y (some (.wolfE sp)) else g) g

/-- The grid-and-counter part of `tick()`: tick increment, snapshot of the
per-kind entity lists, the three processing phases with their spawn
commits, in the fixed order grass, sheep, wolves. -/
def tickPhases (s : EngineState) (rs : RandStream) : EngineState × RandStream :=
  let s := { s with tick := s.tick + 1 }
  let allGrass := s.grid.getGrassEntities
  let allSheep := s.grid.getSheepEntities
  let allWolves := s.grid.getWolfEntities
  let rg := allGrass.foldl (grassPhaseStep s.config) (s.grid, [], rs)
  let g := commitGrassSpawns rg.1 rg.2.1
  let rsh := allSheep.foldl (sheepPhaseStep s.config) (g, [], [], rg.2.2)
  let g := commitSheepSpawns rsh.1 rsh.2.1
  let rw := allWolves.foldl (wolfPhaseStep s.config) (g, [], rsh.2.2.2)
  let g := commitWolfSpawns rw.1 rw.2.1
  ({ s with grid := g }, rw.2.2)

/-- The engine method `tick()`: phases, count refresh, extinction check,
history recording. -/
def tickEngine (s : EngineState) (rs : RandStream) : EngineState × RandStream :=
  let (s, rs) := tickPhases s rs
  let s := checkExtinction (updateCounts s)
  (if s.tick % HISTORY_INTERVAL = 0 then recordHistory s else s, rs)

/-- A public engine operation (each tick carries the draws it consumes). -/
inductive EngineOp
  | tickOp (rs : RandStream)
  | startOp
  | pauseOp
  | toggleOp
  | speedOp (q : ℚ)

/-- Apply one public operation. -/
def applyOp (s : EngineState) : EngineOp → EngineState
  | .tickOp rs => (tickEngine s rs).1
  | .startOp => startEngine s
  | .pauseOp => pauseEngine s
  | .toggleOp => togglePause s
  | .speedOp q => setGameSpeed s q

/-- Apply a sequence of public operations, left to right. -/
def applyOps (s : EngineState) (ops : List EngineOp) : EngineState :=
  ops.foldl applyOp s

/-- Operations other than `start()` and `togglePause()`. -/
def NonStarting : EngineOp → Prop
  | .startOp => False
  | .toggleOp => False
  | _ => True

/-- Grid states reachable from a fresh grid through the mutating grid
operations (`set`, `clear`, `reset`). -/
inductive GridReachable : Grid → Prop
  | init : GridReachable emptyGrid
  | set (g : Grid) (x y : Int) (e : Option Entity) :
      GridReachable g → GridReachable (g.set x y e)
  | clear (g : Grid) (x y : Int) : GridReachable g → GridReachable (g.clear x y)
  | reset (g : Grid) : GridReachable g → GridReachable g.resetAll

/-! Spec-side derived definitions (for stating claims) and the concrete
instances used by witnesses and counterexamples. -/

/-- The candidate seen by `findClosestInRadius` at one scan offset: the
record and its distance when the offset passes the source's filters (in
bounds, not the center, Manhattan distance within the radius, matching
type, record present), else nothing. -/
def candOf (g : Grid) (x y : Int) (r : Nat) (t : EntityType) (d : Int × Int) :
    Option (Entity × Nat) :=
  let nx := x + d.1
  let ny := y + d.2
  if !isValidPosition nx ny then none
  else if d.1 = 0 ∧ d.2 = 0 then none
  else
    let distance := d.1.natAbs + d.2.natAbs
    if r < distance then none
    else if g.getType nx ny = t then
      match g.get nx ny with
      | some e => some (e, distance)
      | none => none
    else none

/-- The candidates in scan order. -/
def candList (g : Grid) (x y : Int) (r : Nat) (t : EntityType) : List (Entity × Nat) :=
  (scanOffsets r).filterMap (candOf g x y r t)

/-- Keep-first-strictly-smaller accumulator, the candidate-level effect of
one `findClosestInRadius` step. -/
def pickMin (acc : Option (Entity × Nat)) (c : Entity × Nat) : Option (Entity × Nat) :=
  match acc with
  | none => some c
  | some m => if c.2 < m.2 then some c else acc

/-- The first element of minimal distance in a candidate list. -/
def firstMin : List (Entity × Nat) → Option (Entity × Nat)
  | [] => none
  | c :: l =>
    match firstMin l with
    | none => some c
    | some m => if m.2 < c.2 then some m else some c

/-- Configuration used by the concrete starvation-boundary instances
(`starvationTime` 10 for sheep, 50 for wolves). -/
def cfgC2 : SimulationConfig where
  grass := ⟨40, 100, 20, 2⟩
  sheep := ⟨200, 10, 10, 2, 3⟩
  wolf := ⟨250, 5, 50, 2, 3⟩
  gameSpeed := 10

/-- A sheep one tick short of `starvationTime` (counter 9 of 10). -/
def sheepStarved : SheepEntity := ⟨127, 127, 0, 0, 9⟩

/-- A grid holding only `sheepStarved`. -/
def gridS : Grid := emptyGrid.set 127 127 (some (.sheepE sheepStarved))

/-- A sheep with a mid-range hunger counter (3 of 10). -/
def sheepFed : SheepEntity := ⟨127, 127, 0, 0, 3⟩

/-- A grid holding only `sheepFed`. -/
def gridSF : Grid := emptyGrid.set 127 127 (some (.sheepE sheepFed))

/-- A wolf one tick short of `starvationTime` (counter 49 of 50). -/
def wolfStarved : WolfEntity := ⟨127, 127, 0, 0, 49⟩

/-- A grid holding only `wolfStarved`. -/
def gridW : Grid := emptyGrid.set 127 127 (some (.wolfE wolfStarved))

/-- A wolf with a mid-range hunger counter (3 of 50). -/
def wolfFed : WolfEntity := ⟨127, 127, 0, 0, 3⟩

/-- A grid holding only `wolfFed`. -/
def gridWF : Grid := emptyGrid.set 127 127 (some (.wolfE wolfFed))

/-- Configuration of the sheep-breeding scenario: `breedThreshold = 1`,
spread rate 0 (so the tick consumes one draw per grass and no spread). -/
def cfgC1 : SimulationConfig where
  grass := ⟨40, 8, 0, 2⟩
  sheep := ⟨200, 1, 10, 1, 5⟩
  wolf := ⟨250, 0, 50, 6, 4⟩
  gameSpeed := 10

/-- The 8 neighbors of `(5,5)`, in `DIRECTIONS` order. -/
def ringC1 : List Pos := [(4, 4), (5, 4), (6, 4), (4, 5), (6, 5), (4, 6), (5, 6), (6, 6)]

/-- The scenario grid: one sheep at `(5,5)`, grass on all 8 neighbors. -/
def gridC1 : Grid :=
  (ringC1.foldl (fun g p => g.set p.1 p.2 (some (.grassE (createGrass p.1 p.2)))) emptyGrid).set
    5 5 (some (.sheepE (createSheep 5 5)))

/-- The scenario engine state. -/
def engineC1 : EngineState := { mkEngine cfgC1 with grid := gridC1 }

/-- Seeding configuration asking for 2 grass and nothing else. -/
def cfgC3 : SimulationConfig where
  grass := ⟨40, 2, 20, 2⟩
  sheep := ⟨200, 0, 10, 8, 5⟩
  wolf := ⟨250, 0, 50, 6, 4⟩
  gameSpeed := 10

/-- Configuration with all initial counts 0 (immediate extinction). -/
def cfgC4 : SimulationConfig where
  grass := ⟨40, 0, 20, 2⟩
  sheep := ⟨200, 0, 10, 8, 5⟩
  wolf := ⟨250, 0, 50, 6, 4⟩
  gameSpeed := 10

/-- The engine state after initializing with all-zero initial counts. -/
def engineC4 : EngineState := (initEngine (mkEngine cfgC4) []).1

/-- A wolf about to step over grass: wolf at `(10,10)`, sheep at `(12,12)`
within hunting radius, grass at `(11,11)` on the step target. -/
def wolfC10 : WolfEntity := ⟨10, 10, 0, 0, 0⟩

/-- The grid of the wolf-over-grass instance. -/
def gridC10 : Grid :=
  ((emptyGrid.set 10 10 (some (.wolfE wolfC10))).set 12 12
      (some (.sheepE (createSheep 12 12)))).set 11 11
    (some (.grassE (createGrass 11 11)))

/-- The structural invariant between the dense type indicator and the
entity map: on every in-bounds cell the two agree (empty indicator exactly
when no record, and a stored record's type field matches the indicator),
and the map holds at most one record per key. -/
def GridWF (g : Grid) : Prop :=
  (∀ x y : Int, isValidPosition x y = true →
    (g.typeGrid (toIndex x y) = .empty ↔ mapGet (x, y) g.entities = none) ∧
    (∀ e, mapGet (x, y) g.entities = some e → entityType e = g.typeGrid (toIndex x y))) ∧
  (g.entities.map Prod.fst).Nodup

/-- Per-kind accessor on population counts (`Empty` counts nothing). -/
def countOf (c : PopulationCounts) : EntityType → Nat
  | .grass => c.grass
  | .sheep => c.sheep
  | .wolf => c.wolves
  | .empty => 0

/-- The grid produced by the malicious-draw seeding run: one grass at the
origin. -/
def gridC3 : Grid := emptyGrid.set 0 0 (some (.grassE (createGrass 0 0)))

/-! Helper lemmas about the entity map. -/

theorem mapGet_mapSet_self (k : Pos) (v : Entity) (l : List (Pos × Entity)) :
    mapGet k (mapSet k v l) = some v := by
  induction l with
  | nil => simp [mapGet, mapSet]
  | cons kv rest ih =>
    obtain ⟨k', v'⟩ := kv
    by_cases h : k' = k <;> simp [mapGet, mapSet, h, ih]

theorem mapGet_mapSet_ne (k k' : Pos) (v : Entity) (l : List (Pos × Entity))
    (h : k' ≠ k) : mapGet k' (mapSet k v l) = mapGet k' l := by
  induction l with
  | nil => simp [mapGet, mapSet, Ne.symm h]
  | cons kv rest ih =>
    obtain ⟨k'', v''⟩ := kv
    by_cases hk : k'' = k
    · subst hk
      simp [mapGet, mapSet, Ne.symm h]
    · by_cases hk' : k'' = k' <;> simp [mapGet, mapSet, hk, hk', h, ih]

theorem mapGet_eq_none_of_not_mem (k : Pos) (l : List (Pos × Entity))
    (h : k ∉ l.map Prod.fst) : mapGet k l = none := by
  induction l with
  | nil => rfl
  | cons kv rest ih =>
    obtain ⟨k', v'⟩ := kv
    simp only [List.map_cons, List.mem_cons] at h
    push_neg at h
    simp [mapGet, Ne.symm h.1, ih h.2]

theorem mapGet_mapDelete_self (k : Pos) (l : List (Pos × Entity))
    (h : (l.map Prod.fst).Nodup) : mapGet k (mapDelete k l) = none := by
  induction l with
  | nil => rfl
  | cons kv rest ih =>
    obtain ⟨k', v'⟩ := kv
    simp only [List.map_cons, List.nodup_cons] at h
    by_cases hk : k' = k
    · subst hk
      simpa [mapDelete] using mapGet_eq_none_of_not_mem k' rest h.1
    · simp [mapDelete, mapGet, hk, ih h.2]

theorem mapGet_mapDelete_ne (k k' : Pos) (l : List (Pos × Entity))
    (h : k' ≠ k) : mapGet k' (mapDelete k l) = mapGet k' l := by
  induction l with
  | nil => rfl
  | cons kv rest ih =>
    obtain ⟨k'', v''⟩ := kv
    by_cases hk : k'' = k
    · subst hk
      simp [mapDelete, mapGet, Ne.symm h]
    · by_cases hk' : k'' = k' <;> simp [mapGet, mapDelete, hk, hk', h, ih]

theorem mapSet_keys (k : Pos) (v : Entity) (l : List (Pos × Entity)) :
    (mapSet k v l).map Prod.fst =
      if k ∈ l.map Prod.fst then l.map Prod.fst else l.map Prod.fst ++ [k] := by
  induction l with
  | nil => simp [mapSet]
  | cons kv rest ih =>
    obtain ⟨k', v'⟩ := kv
    by_cases hk : k' = k
    · subst hk
      simp [mapSet]
    · by_cases hmem : k ∈ rest.map Prod.fst <;>
        simp [mapSet, hk, Ne.symm hk, hmem, ih]

theorem mapSet_keys_nodup (k : Pos) (v : Entity) (l : List (Pos × Entity))
    (h : (l.map Prod.fst).Nodup) : ((mapSet k v l).map Prod.fst).Nodup := by
  rw [mapSet_keys]
  by_cases hmem : k ∈ l.map Prod.fst <;> simp [hmem, h, List.nodup_append]

theorem mapDelete_keys_sublist (k : Pos) (l : List (Pos × Entity)) :
    ((mapDelete k l).map Prod.fst).Sublist (l.map Prod.fst) := by
  induction l with
  | nil => simp [mapDelete]
  | cons kv rest ih =>
    obtain ⟨k', v'⟩ := kv
    by_cases hk : k' = k <;> simp [mapDelete, hk]
    exact ih

theorem mapDelete_keys_nodup (k : Pos) (l : List (Pos × Entity))
    (h : (l.map Prod.fst).Nodup) : ((mapDelete k l).map Prod.fst).Nodup :=
  (mapDelete_keys_sublist k l).nodup h


/-! Coordinate and grid-operation lemmas. -/

theorem isValidPosition_iff (x y : Int) :
    isValidPosition x y = true ↔ 0 ≤ x ∧ x < 255 ∧ 0 ≤ y ∧ y < 255 := by
  simp [isValidPosition, GRID_WIDTH, GRID_HEIGHT, and_assoc]

theorem toIndex_inj {x y x' y' : Int} (h : isValidPosition x y = true)
    (h' : isValidPosition x' y' = true) (he : toIndex x y = toIndex x' y') :
    x = x' ∧ y = y' := by
  rw [isValidPosition_iff] at h h'
  simp only [toIndex, GRID_WIDTH] at he
  omega

theorem toIndex_bounds {x y : Int} (h : isValidPosition x y = true) :
    0 ≤ toIndex x y ∧ toIndex x y < (GRID_SIZE : Int) := by
  rw [isValidPosition_iff] at h
  simp only [toIndex, GRID_WIDTH, GRID_SIZE]
  omega

theorem Grid.set_invalid (g : Grid) (x y : Int) (e : Option Entity)
    (hv : isValidPosition x y = false) : g.set x y e = g := by
  simp [Grid.set, hv]

theorem Grid.getType_set_self (g : Grid) {x y : Int} (e : Entity)
    (hv : isValidPosition x y = true) :
    (g.set x y (some e)).getType x y = entityType e := by
  simp [Grid.set, Grid.getType, hv]

theorem Grid.get_set_self (g : Grid) {x y : Int} (e : Entity)
    (hv : isValidPosition x y = true) :
    (g.set x y (some e)).get x y = some e := by
  simp [Grid.set, Grid.get, hv, mapGet_mapSet_self]

theorem Grid.getType_clear_self (g : Grid) (x y : Int) :
    (g.clear x y).getType x y = .empty := by
  by_cases hv : isValidPosition x y <;>
    simp [Grid.clear, Grid.set, Grid.getType, hv]

theorem Grid.get_clear_self (g : Grid) (x y : Int)
    (h : (g.entities.map Prod.fst).Nodup) : (g.clear x y).get x y = none := by
  by_cases hv : isValidPosition x y <;>
    simp [Grid.clear, Grid.set, Grid.get, hv, mapGet_mapDelete_self _ _ h]

theorem Grid.set_keys_nodup (g : Grid) (x y : Int) (e : Option Entity)
    (h : (g.entities.map Prod.fst).Nodup) :
    ((g.set x y e).entities.map Prod.fst).Nodup := by
  by_cases hv : isValidPosition x y
  · cases e <;> simp [Grid.set, hv, mapSet_keys_nodup, mapDelete_keys_nodup, h]
  · simp [Grid.set, hv, h]

/-! Random-stream lemmas. -/

theorem validStream_tail {rs : RandStream} (h : ValidStream rs) :
    ValidStream (nextDraw rs).2 := by
  cases rs with
  | nil => exact h
  | cons q rest => exact fun q' hq' => h q' (List.mem_cons_of_mem _ hq')

theorem validStream_head {rs : RandStream} (h : ValidStream rs) :
    0 ≤ (nextDraw rs).1 ∧ (nextDraw rs).1 < 1 := by
  cases rs with
  | nil => exact ⟨by simp [nextDraw], by simp [nextDraw]⟩
  | cons q rest => exact h q (List.mem_cons_self q rest)

theorem validStream_shouldDie {a L : ℚ} {rs : RandStream} (h : ValidStream rs) :
    ValidStream (shouldDieOfOldAge a L rs).2 := by
  unfold shouldDieOfOldAge
  dsimp only
  split_ifs
  · exact h
  · exact h
  · rcases hnd : nextDraw rs with ⟨q, rs'⟩
    have ht := validStream_tail h
    rw [hnd] at ht
    simpa using ht

theorem pickIndex_lt {q : ℚ} {n : Nat} (h0 : 0 ≤ q) (h1 : q < 1) (hn : 0 < n) :
    pickIndex q n < n := by
  unfold pickIndex
  have hq : q * (n : ℚ) < (n : ℚ) := by
    have hn' : (0 : ℚ) < (n : ℚ) := by exact_mod_cast hn
    calc q * (n : ℚ) < 1 * (n : ℚ) := by exact mul_lt_mul_of_pos_right h1 hn'
    _ = (n : ℚ) := one_mul _
  have hfl : ⌊q * (n : ℚ)⌋ < (n : Int) := Int.floor_lt.mpr (by exact_mod_cast hq)
  omega

theorem getD_mem_of_lt {α : Type} {l : List α} {i : Nat} {d : α} (h : i < l.length) :
    l.getD i d ∈ l := by
  induction l generalizing i with
  | nil => simp at h
  | cons a rest ih =>
    cases i with
    | zero => simp [List.getD]
    | succ i =>
      simp only [List.getD_cons_succ]
      exact List.mem_cons_of_mem _ (ih (by simpa using h))

/-! Population-count lemmas. -/

theorem getCountsAux_congr (g g' : Grid) (n : Nat)
    (h : ∀ i : Nat, i < n → g'.typeGrid (i : Int) = g.typeGrid (i : Int)) :
    getCountsAux g' n = getCountsAux g n := by
  induction n with
  | zero => rfl
  | succ n ih =>
    simp only [getCountsAux]
    rw [ih fun i hi => h i (Nat.lt_succ_of_lt hi), h n (Nat.lt_succ_self n)]

theorem getCountsAux_emptyGrid (n : Nat) : getCountsAux emptyGrid n = ⟨0, 0, 0⟩ := by
  induction n with
  | zero => rfl
  | succ n ih =>
    rw [getCountsAux, ih]
    rfl

theorem countsBump_comm (c : PopulationCounts) (a b : EntityType) :
    countsBump (countsBump c a) b = countsBump (countsBump c b) a := by
  cases a <;> cases b <;> rfl

theorem getCountsAux_set (g : Grid) (x y : Int) (e : Entity) (n : Nat)
    (hv : isValidPosition x y = true) (he : g.typeGrid (toIndex x y) = .empty)
    (hn : toIndex x y < (n : Int)) :
    getCountsAux (g.set x y (some e)) n = countsBump (getCountsAux g n) (entityType e) := by
  induction n with
  | zero =>
    exact absurd hn (by simpa using (toIndex_bounds hv).1)
  | succ n ih =>
    by_cases hj : toIndex x y = (n : Int)
    · have hcongr : getCountsAux (g.set x y (some e)) n = getCountsAux g n := by
        refine getCountsAux_congr g _ n fun i hi => ?_
        have : (i : Int) ≠ toIndex x y := by omega
        simp [Grid.set, hv, this]
      simp only [getCountsAux]
      rw [hcongr]
      have htype : (g.set x y (some e)).typeGrid (n : Int) = entityType e := by
        simp [Grid.set, hv, ← hj]
      have htype' : g.typeGrid (n : Int) = .empty := hj ▸ he
      rw [htype, htype', countsBump]
    · have hlt : toIndex x y < (n : Int) := by omega
      simp only [getCountsAux]
      rw [ih hlt]
      have htype : (g.set x y (some e)).typeGrid (n : Int) = g.typeGrid (n : Int) := by
        simp [Grid.set, hv, Ne.symm hj]
      rw [htype, countsBump_comm]

theorem Grid.getCounts_set_of_empty (g : Grid) {x y : Int} (e : Entity)
    (hv : isValidPosition x y = true) (he : g.getType x y = .empty) :
    (g.set x y (some e)).getCounts = countsBump g.getCounts (entityType e) := by
  have he' : g.typeGrid (toIndex x y) = .empty := by simpa [Grid.getType, hv] using he
  exact getCountsAux_set g x y e GRID_SIZE hv he' (by exact_mod_cast (toIndex_bounds hv).2)

theorem Grid.getCounts_emptyGrid : emptyGrid.getCounts = ⟨0, 0, 0⟩ :=
  getCountsAux_emptyGrid GRID_SIZE


theorem updateSheep_alive (s : SheepEntity) (g : Grid) (cfg : SimulationConfig)
    (rs : RandStream) :
    (updateSheep s g cfg rs).2.1.alive =
      (!(shouldDieOfOldAge ((s.age + 1 : Nat) : ℚ) cfg.sheep.lifeExpectancy rs).1
        && decide (s.ticksSinceLastMeal + 1 < cfg.sheep.starvationTime)) := by
  unfold updateSheep
  dsimp only
  rcases hsd : shouldDieOfOldAge ((s.age + 1 : Nat) : ℚ) cfg.sheep.lifeExpectancy rs
    with ⟨dead, rs₂⟩
  dsimp only
  cases dead with
  | true => simp
  | false =>
    by_cases hst : cfg.sheep.starvationTime ≤ s.ticksSinceLastMeal + 1
    · simp [hst, Nat.not_lt.mpr hst]
    · have hlt : s.ticksSinceLastMeal + 1 < cfg.sheep.starvationTime := Nat.not_le.mp hst
      simp only [Bool.false_eq_true, if_false, if_neg hst, Bool.not_false, Bool.true_and,
        decide_eq_true hlt]
      repeat' split
      all_goals rfl


theorem updateWolf_alive (w : WolfEntity) (g : Grid) (cfg : SimulationConfig)
    (rs : RandStream) :
    (updateWolf w g cfg rs).2.1.alive =
      (!(shouldDieOfOldAge ((w.age + 1 : Nat) : ℚ) cfg.wolf.lifeExpectancy rs).1
        && decide (w.ticksSinceLastMeal + 1 < cfg.wolf.starvationTime)) := by
  unfold updateWolf
  dsimp only
  rcases hsd : shouldDieOfOldAge ((w.age + 1 : Nat) : ℚ) cfg.wolf.lifeExpectancy rs
    with ⟨dead, rs₂⟩
  dsimp only
  cases dead with
  | true => simp
  | false =>
    by_cases hst : cfg.wolf.starvationTime ≤ w.ticksSinceLastMeal + 1
    · simp [hst, Nat.not_lt.mpr hst]
    · have hlt : w.ticksSinceLastMeal + 1 < cfg.wolf.starvationTime := Nat.not_le.mp hst
      simp only [Bool.false_eq_true, if_false, if_neg hst, Bool.not_false, Bool.true_and,
        decide_eq_true hlt]
      repeat' split
      all_goals rfl

/-- C2 (amended): the starvation check runs after the hunger counter has
already been incremented for the tick, so — old-age death aside — a sheep
or wolf survives its update exactly when the incremented counter is still
below `starvationTime`; an animal entering the tick with
`ticksSinceLastMeal = starvationTime - 1` is killed by that tick's
starvation check. -/
theorem C2_starvation_boundary (cfg : SimulationConfig) (g g' : Grid)
    (s : SheepEntity) (w : WolfEntity) (rs rs' : RandStream)
    (hs : (shouldDieOfOldAge ((s.age + 1 : Nat) : ℚ) cfg.sheep.lifeExpectancy rs).1 = false)
    (hw : (shouldDieOfOldAge ((w.age + 1 : Nat) : ℚ) cfg.wolf.lifeExpectancy rs').1 = false) :
    ((updateSheep s g cfg rs).2.1.alive = true ↔
      s.ticksSinceLastMeal + 1 < cfg.sheep.starvationTime) ∧
    ((updateWolf w g' cfg rs').2.1.alive = true ↔
      w.ticksSinceLastMeal + 1 < cfg.wolf.starvationTime) := by
  constructor
  · rw [updateSheep_alive, hs]
    simp
  · rw [updateWolf_alive, hw]
    simp

section ConcreteEval

attribute [local semireducible] Rat.mul Rat.add Rat.sub Rat.inv

/-- C2 counterexample: with `starvationTime = 10` (sheep) and `50` (wolf),
an animal whose counter reads `starvationTime - 1` immediately before its
update is killed by that tick's starvation check, contradicting the claim
that it survives. -/
theorem C2_counterexample :
    sheepStarved.ticksSinceLastMeal = cfgC2.sheep.starvationTime - 1 ∧
    (updateSheep sheepStarved gridS cfgC2 []).2.1.alive = false ∧
    wolfStarved.ticksSinceLastMeal = cfgC2.wolf.starvationTime - 1 ∧
    (updateWolf wolfStarved gridW cfgC2 []).2.1.alive = false := by
  refine ⟨rfl, ?_, rfl, ?_⟩ <;> decide

/-- Witness for C2 at a concrete instance: counters 3 of 10 and 3 of 50. -/
theorem C2_witness :
    ((updateSheep sheepFed gridSF cfgC2 []).2.1.alive = true ↔
      sheepFed.ticksSinceLastMeal + 1 < cfgC2.sheep.starvationTime) ∧
    ((updateWolf wolfFed gridWF cfgC2 []).2.1.alive = true ↔
      wolfFed.ticksSinceLastMeal + 1 < cfgC2.wolf.starvationTime) :=
  C2_starvation_boundary cfgC2 gridSF gridWF sheepFed wolfFed [] [] (by decide) (by decide)

end ConcreteEval

/-- C8: out-of-bounds reads are total and benign: for every coordinate
outside `[0,W) × [0,H)`, `getType` returns `Empty` and `get` returns
`null`; both accessors are total functions of the grid, so no read throws. -/
theorem C8_out_of_bounds_reads (g : Grid) (x y : Int)
    (h : ¬ (0 ≤ x ∧ x < GRID_WIDTH ∧ 0 ≤ y ∧ y < GRID_HEIGHT)) :
    g.getType x y = .empty ∧ g.get x y = none := by
  have hv : isValidPosition x y = false := by
    rw [← Bool.not_eq_true, isValidPosition_iff]
    simpa [GRID_WIDTH, GRID_HEIGHT] using h
  simp [Grid.getType, Grid.get, hv]

/-- Witness for C8 at the concrete coordinate `(-1, 3)`. -/
theorem C8_witness : emptyGrid.getType (-1) 3 = .empty ∧ emptyGrid.get (-1) 3 = none :=
  C8_out_of_bounds_reads emptyGrid (-1) 3 (by decide)

/-- C5: the old-age death chance is 0 below 80% of life expectancy; in the
window `[80%, 120%)` the predicate holds exactly when the uniform draw is
below `(age - 0.8·L)/(0.4·L)`; at or above 120% death is certain; and at
`age = lifeExpectancy` the chance is exactly 1/2. -/
theorem C5_old_age_death_probability (age lifeExpectancy : ℚ) (rs : RandStream)
    (hL : 0 < lifeExpectancy) :
    (age < lifeExpectancy * (4 / 5) →
      (shouldDieOfOldAge age lifeExpectancy rs).1 = false) ∧
    (lifeExpectancy * (4 / 5) ≤ age → age < lifeExpectancy * (6 / 5) →
      ((shouldDieOfOldAge age lifeExpectancy rs).1 = true ↔
        (nextDraw rs).1 < (age - lifeExpectancy * (4 / 5)) / (lifeExpectancy * (2 / 5)))) ∧
    (lifeExpectancy * (6 / 5) ≤ age →
      (shouldDieOfOldAge age lifeExpectancy rs).1 = true) ∧
    (age = lifeExpectancy →
      (age - lifeExpectancy * (4 / 5)) / (lifeExpectancy * (6 / 5) - lifeExpectancy * (4 / 5))
        = 1 / 2) := by
  refine ⟨?_, ?_, ?_, ?_⟩
  · intro h
    simp [shouldDieOfOldAge, h]
  · intro h1 h2
    rcases hnd : nextDraw rs with ⟨q, rs'⟩
    have hden : lifeExpectancy * (6 / 5) - lifeExpectancy * (4 / 5)
        = lifeExpectancy * (2 / 5) := by ring
    simp only [shouldDieOfOldAge, not_lt.mpr h1, if_false, not_le.mpr h2, hnd, hden,
      decide_eq_true_eq]
  · intro h
    have h1 : ¬ age < lifeExpectancy * (4 / 5) := by nlinarith
    have h2 : lifeExpectancy * (6 / 5) ≤ age := h
    simp [shouldDieOfOldAge, h1, h2]
  · intro h
    have hden : lifeExpectancy * (6 / 5) - lifeExpectancy * (4 / 5)
        = lifeExpectancy * (2 / 5) := by ring
    rw [h, hden, div_eq_iff (by positivity)]
    ring

section ConcreteEval2

attribute [local semireducible] Rat.mul Rat.add Rat.sub Rat.inv

/-- Witness for C5 at life expectancy 10, age 10 and the draw 1/4:
the window case of the theorem at a concrete input. -/
theorem C5_witness :
    (shouldDieOfOldAge 10 10 [1 / 4]).1 = true ↔
      (nextDraw [(1 / 4 : ℚ)]).1 < ((10 : ℚ) - 10 * (4 / 5)) / (10 * (2 / 5)) :=
  (C5_old_age_death_probability 10 10 [1 / 4] (by decide)).2.1 (by decide) (by decide)

end ConcreteEval2


theorem entityType_ne_empty (e : Entity) : entityType e ≠ .empty := by
  cases e <;> simp [entityType]

theorem gridWF_empty : GridWF emptyGrid := by
  refine ⟨fun x y hv => ⟨by simp [emptyGrid, mapGet], fun e h => ?_⟩, by simp [emptyGrid]⟩
  simp [emptyGrid, mapGet] at h

theorem gridWF_set (g : Grid) (x y : Int) (e : Option Entity) (h : GridWF g) :
    GridWF (g.set x y e) := by
  by_cases hv : isValidPosition x y
  · cases e with
    | none =>
      refine ⟨fun x' y' hv' => ?_, ?_⟩
      · by_cases hxy : x' = x ∧ y' = y
        · obtain ⟨hx, hy⟩ := hxy
          subst hx; subst hy
          constructor
          · simp [Grid.set, hv, mapGet_mapDelete_self _ _ h.2]
          · intro e' he'
            simp [Grid.set, hv, mapGet_mapDelete_self _ _ h.2] at he'
        · have hne : ((x', y') : Pos) ≠ (x, y) := by
            intro hc
            exact hxy ⟨congrArg Prod.fst hc, congrArg Prod.snd hc⟩
          have hidx : toIndex x' y' ≠ toIndex x y := fun hc =>
            hxy (toIndex_inj hv' hv hc)
          have hg := h.1 x' y' hv'
          constructor
          · simpa [Grid.set, hv, hidx, mapGet_mapDelete_ne _ _ _ hne] using hg.1
          · intro e' he'
            have he'' : mapGet (x', y') g.entities = some e' := by
              simpa [Grid.set, hv, mapGet_mapDelete_ne _ _ _ hne] using he'
            simpa [Grid.set, hv, hidx] using hg.2 e' he''
      · simpa [Grid.set, hv] using mapDelete_keys_nodup _ _ h.2
    | some ent =>
      refine ⟨fun x' y' hv' => ?_, ?_⟩
      · by_cases hxy : x' = x ∧ y' = y
        · obtain ⟨hx, hy⟩ := hxy
          subst hx; subst hy
          constructor
          · simp [Grid.set, hv, mapGet_mapSet_self, entityType_ne_empty]
          · intro e' he'
            have hee : ent = e' := by
              simpa [Grid.set, hv, mapGet_mapSet_self] using he'
            subst hee
            simp [Grid.set, hv]
        · have hne : ((x', y') : Pos) ≠ (x, y) := by
            intro hc
            exact hxy ⟨congrArg Prod.fst hc, congrArg Prod.snd hc⟩
          have hidx : toIndex x' y' ≠ toIndex x y := fun hc =>
            hxy (toIndex_inj hv' hv hc)
          have hg := h.1 x' y' hv'
          constructor
          · simpa [Grid.set, hv, hidx, mapGet_mapSet_ne _ _ _ _ hne] using hg.1
          · intro e' he'
            have he'' : mapGet (x', y') g.entities = some e' := by
              simpa [Grid.set, hv, mapGet_mapSet_ne _ _ _ _ hne] using he'
            simpa [Grid.set, hv, hidx] using hg.2 e' he''
      · simpa [Grid.set, hv] using mapSet_keys_nodup _ _ _ h.2
  · rw [Grid.set_invalid _ _ _ _ (Bool.not_eq_true _ ▸ hv : isValidPosition x y = false)]
    exact h

/-- C6: for every grid state reachable from the fresh grid through the
mutating grid operations, and every coordinate, the cell's type indicator
is `Empty` exactly when the record map has no entry there, an occupied
cell's record carries exactly the indicated type, and the map holds at
most one record per cell. -/
theorem C6_type_record_agreement (g : Grid) (hg : GridReachable g) (x y : Int) :
    (g.getType x y = .empty ↔ g.get x y = none) ∧
    (∀ e, g.get x y = some e → entityType e = g.getType x y) ∧
    (g.entities.map Prod.fst).Nodup := by
  have hwf : GridWF g := by
    induction hg with
    | init => exact gridWF_empty
    | set g' x' y' e' _ ih => exact gridWF_set g' x' y' e' ih
    | clear g' x' y' _ ih => exact gridWF_set g' x' y' none ih
    | reset g' _ _ => exact gridWF_empty
  refine ⟨?_, ?_, hwf.2⟩
  · by_cases hv : isValidPosition x y
    · simpa [Grid.getType, Grid.get, hv] using (hwf.1 x y hv).1
    · simp [Grid.getType, Grid.get, hv]
  · intro e he
    by_cases hv : isValidPosition x y
    · have := (hwf.1 x y hv).2 e (by simpa [Grid.get, hv] using he)
      simpa [Grid.getType, hv] using this
    · simp [Grid.get, hv] at he

/-- Witness for C6 on the concrete reachable grid `gridS` at `(127, 127)`. -/
theorem C6_witness :
    (gridS.getType 127 127 = .empty ↔ gridS.get 127 127 = none) ∧
    (∀ e, gridS.get 127 127 = some e → entityType e = gridS.getType 127 127) ∧
    (gridS.entities.map Prod.fst).Nodup :=
  C6_type_record_agreement gridS
    (GridReachable.set emptyGrid 127 127 (some (.sheepE sheepStarved)) GridReachable.init)
    127 127


theorem closestStep_eq (g : Grid) (x y : Int) (r : Nat) (t : EntityType)
    (acc : Option (Entity × Nat)) (d : Int × Int) :
    closestStep g x y r t acc d =
      match candOf g x y r t d with
      | some c => pickMin acc c
      | none => acc := by
  unfold closestStep candOf
  dsimp only
  split_ifs <;> try rfl
  rcases g.get (x + d.1) (y + d.2) with _ | e <;> rcases acc with _ | c <;>
    simp [pickMin] <;> split_ifs <;> rfl

theorem foldl_closestStep_eq (g : Grid) (x y : Int) (r : Nat) (t : EntityType)
    (l : List (Int × Int)) (acc : Option (Entity × Nat)) :
    l.foldl (closestStep g x y r t) acc =
      (l.filterMap (candOf g x y r t)).foldl pickMin acc := by
  induction l generalizing acc with
  | nil => rfl
  | cons d l ih =>
    rw [List.foldl_cons, closestStep_eq, List.filterMap_cons]
    rcases candOf g x y r t d with _ | c
    · exact ih acc
    · rw [List.foldl_cons]
      exact ih (pickMin acc c)

theorem foldl_pickMin_some (l : List (Entity × Nat)) :
    ∀ a : Entity × Nat, l.foldl pickMin (some a) = firstMin (a :: l) := by
  induction l with
  | nil => intro a; rfl
  | cons c l ih =>
    intro a
    show l.foldl pickMin (pickMin (some a) c) = firstMin (a :: c :: l)
    have hfold : pickMin (some a) c = some (if c.2 < a.2 then c else a) := by
      by_cases h : c.2 < a.2 <;> simp [pickMin, h]
    rw [hfold, ih]
    rcases hfm : firstMin l with _ | m
    · simp only [firstMin, hfm]
      split_ifs with h1 <;> simp [h1]
    · simp only [firstMin, hfm]
      by_cases h1 : c.2 < a.2 <;> by_cases h2 : m.2 < c.2 <;> by_cases h3 : m.2 < a.2 <;>
        simp [h1, h2, h3] <;> omega

theorem findClosest_eq_firstMin (g : Grid) (x y : Int) (r : Nat) (t : EntityType) :
    g.findClosestInRadius x y r t = firstMin (candList g x y r t) := by
  rw [Grid.findClosestInRadius, foldl_closestStep_eq, ← candList]
  rcases hc : candList g x y r t with _ | ⟨c, l⟩
  · rfl
  · show l.foldl pickMin (pickMin none c) = _
    have : pickMin none c = some c := rfl
    rw [this, foldl_pickMin_some]

theorem firstMin_eq_none_iff (l : List (Entity × Nat)) : firstMin l = none ↔ l = [] := by
  cases l with
  | nil => simp [firstMin]
  | cons c l =>
    simp only [firstMin]
    rcases firstMin l with _ | m <;> simp
    split_ifs <;> simp

theorem firstMin_spec (l : List (Entity × Nat)) (c : Entity × Nat)
    (h : firstMin l = some c) :
    c ∈ l ∧ (∀ c' ∈ l, c.2 ≤ c'.2) ∧
    ∃ l₁ l₂, l = l₁ ++ c :: l₂ ∧ ∀ c' ∈ l₁, c.2 < c'.2 := by
  induction l generalizing c with
  | nil => simp [firstMin] at h
  | cons a l ih =>
    rcases hfm : firstMin l with _ | m
    · have hnil : l = [] := (firstMin_eq_none_iff l).mp hfm
      subst hnil
      have hca : c = a := by simpa [firstMin] using h.symm
      subst hca
      exact ⟨List.mem_singleton_self c, by simp, [], [], rfl, by simp⟩
    · simp only [firstMin, hfm] at h
      by_cases hm : m.2 < a.2
      · rw [if_pos hm] at h
        obtain rfl : m = c := by simpa using h
        obtain ⟨hmem, hmin, l₁, l₂, heq, hpre⟩ := ih m hfm
        refine ⟨List.mem_cons_of_mem a hmem, ?_, a :: l₁, l₂, by simp [heq], ?_⟩
        · intro c' hc'
          rcases List.mem_cons.mp hc' with rfl | hc'
          · exact le_of_lt hm
          · exact hmin c' hc'
        · intro c' hc'
          rcases List.mem_cons.mp hc' with rfl | hc'
          · exact hm
          · exact hpre c' hc'
      · rw [if_neg hm] at h
        obtain rfl : a = c := by simpa using h
        obtain ⟨hmem, hmin, _, _, _, _⟩ := ih m hfm
        refine ⟨List.mem_cons_self a l, ?_, [], l, rfl, by simp⟩
        intro c' hc'
        rcases List.mem_cons.mp hc' with rfl | hc'
        · exact le_refl _
        · exact le_trans (Nat.not_lt.mp hm) (hmin c' hc')


theorem scanOffsets_mem (r : Nat) (d : Int × Int) :
    d ∈ scanOffsets r ↔ -(r : Int) ≤ d.1 ∧ d.1 ≤ r ∧ -(r : Int) ≤ d.2 ∧ d.2 ≤ r := by
  obtain ⟨dx, dy⟩ := d
  constructor
  · intro h
    obtain ⟨ey, hey, hd⟩ := List.mem_flatMap.mp h
    obtain ⟨i, hi, hey'⟩ := List.mem_map.mp hey
    obtain ⟨dxv, hdxv, hpd⟩ := List.mem_map.mp hd
    obtain ⟨j, hj, hdx'⟩ := List.mem_map.mp hdxv
    rw [List.mem_range] at hi hj
    rw [Prod.mk.injEq] at hpd
    obtain ⟨hp1, hp2⟩ := hpd
    subst hp1
    subst hp2
    subst hey'
    subst hdx'
    refine ⟨by omega, by omega, by omega, by omega⟩
  · rintro ⟨h1, h2, h3, h4⟩
    refine List.mem_flatMap.mpr ⟨dy, List.mem_map.mpr ⟨(dy + (r : Int)).toNat,
      List.mem_range.mpr (by omega), by omega⟩, List.mem_map.mpr ⟨dx,
      List.mem_map.mpr ⟨(dx + (r : Int)).toNat, List.mem_range.mpr (by omega), by omega⟩,
      rfl⟩⟩

theorem candOf_eq_some_iff (g : Grid) (x y : Int) (r : Nat) (t : EntityType)
    (d : Int × Int) (c : Entity × Nat) :
    candOf g x y r t d = some c ↔
      isValidPosition (x + d.1) (y + d.2) = true ∧ ¬(d.1 = 0 ∧ d.2 = 0) ∧
      d.1.natAbs + d.2.natAbs ≤ r ∧ g.getType (x + d.1) (y + d.2) = t ∧
      g.get (x + d.1) (y + d.2) = some c.1 ∧ c.2 = d.1.natAbs + d.2.natAbs := by
  unfold candOf
  dsimp only
  split_ifs with hnv hc0 hlt ht
  · rw [Bool.not_eq_true'] at hnv
    simp [hnv]
  · simp [hc0]
  · simp [show ¬(d.1.natAbs + d.2.natAbs ≤ r) from by omega]
  · rw [Bool.not_eq_true', Bool.not_eq_false] at hnv
    rcases hget : g.get (x + d.1) (y + d.2) with _ | e
    · simp [hget]
    · obtain ⟨ce, cd⟩ := c
      simp only [hnv, hc0, not_false_iff, show d.1.natAbs + d.2.natAbs ≤ r from by omega,
        ht, hget, Option.some.injEq, Prod.mk.injEq, true_and]
      constructor
      · rintro ⟨he, hd⟩
        exact ⟨he, hd.symm⟩
      · rintro ⟨he, hd⟩
        exact ⟨he, hd.symm⟩
  · rw [Bool.not_eq_true', Bool.not_eq_false] at hnv
    simp [ht]

theorem candList_eq_nil_iff (g : Grid) (x y : Int) (r : Nat) (t : EntityType) :
    candList g x y r t = [] ↔
      ∀ dx dy : Int, dx.natAbs + dy.natAbs ≤ r → ¬(dx = 0 ∧ dy = 0) →
        isValidPosition (x + dx) (y + dy) = true →
        g.getType (x + dx) (y + dy) = t → g.get (x + dx) (y + dy) = none := by
  rw [candList, List.filterMap_eq_nil_iff]
  constructor
  · intro h dx dy hd hc hv ht
    have hmem : ((dx, dy) : Int × Int) ∈ scanOffsets r := by
      rw [scanOffsets_mem]
      refine ⟨by omega, by omega, by omega, by omega⟩
    have := h _ hmem
    rcases hget : g.get (x + dx) (y + dy) with _ | e
    · rfl
    · exfalso
      have : candOf g x y r t (dx, dy) = some (e, dx.natAbs + dy.natAbs) := by
        rw [candOf_eq_some_iff]
        exact ⟨hv, hc, hd, ht, hget, rfl⟩
      rw [h _ hmem] at this
      exact Option.noConfusion this
  · intro h d _
    rcases hcand : candOf g x y r t d with _ | c
    · rfl
    · exfalso
      rw [candOf_eq_some_iff] at hcand
      obtain ⟨hv, hc, hd, ht, hget, _⟩ := hcand
      rw [h d.1 d.2 hd hc hv ht] at hget
      exact Option.noConfusion hget

/-- C9: `findClosestInRadius` is a deterministic function of the grid
state; it returns `null` exactly when no cell at Manhattan distance at
most `r` from the (excluded) center holds a record of the requested type,
and otherwise it returns a record of that type at minimal Manhattan
distance, the first such record in the fixed row-major scan order
(`dy` from `-r` to `r` outside, `dx` from `-r` to `r` inside). -/
theorem C9_findClosestInRadius_spec (g : Grid) (x y : Int) (r : Nat) (t : EntityType) :
    (g.findClosestInRadius x y r t = none ↔
      ∀ dx dy : Int, dx.natAbs + dy.natAbs ≤ r → ¬(dx = 0 ∧ dy = 0) →
        isValidPosition (x + dx) (y + dy) = true →
        g.getType (x + dx) (y + dy) = t → g.get (x + dx) (y + dy) = none) ∧
    (∀ e dist, g.findClosestInRadius x y r t = some (e, dist) →
      dist ≤ r ∧
      (∃ dx dy : Int, ¬(dx = 0 ∧ dy = 0) ∧ dx.natAbs + dy.natAbs = dist ∧
        g.getType (x + dx) (y + dy) = t ∧ g.get (x + dx) (y + dy) = some e) ∧
      (∀ c ∈ candList g x y r t, dist ≤ c.2) ∧
      (∃ l₁ l₂, candList g x y r t = l₁ ++ (e, dist) :: l₂ ∧ ∀ c ∈ l₁, dist < c.2)) := by
  constructor
  · rw [findClosest_eq_firstMin, firstMin_eq_none_iff, candList_eq_nil_iff]
  · intro e dist h
    rw [findClosest_eq_firstMin] at h
    obtain ⟨hmem, hmin, l₁, l₂, heq, hpre⟩ := firstMin_spec _ _ h
    obtain ⟨d, _, hcand⟩ := List.mem_filterMap.mp hmem
    rw [candOf_eq_some_iff] at hcand
    obtain ⟨hv, hc, hd, ht, hget, hdist⟩ := hcand
    refine ⟨by omega, ⟨d.1, d.2, hc, hdist.symm, ht, hget⟩, hmin, l₁, l₂, heq, hpre⟩


set_option maxHeartbeats 1000000 in
theorem getRandomEmptyPositionAux_empty (g : Grid) (n : Nat) (rs : RandStream) (p : Pos)
    (h : (getRandomEmptyPositionAux g n rs).1 = some p) : g.getType p.1 p.2 = .empty := by
  induction n generalizing rs with
  | zero => simp [getRandomEmptyPositionAux] at h
  | succ n ih =>
    rw [getRandomEmptyPositionAux] at h
    rcases hnd : nextDraw rs with ⟨qx, rs1⟩
    rw [hnd] at h
    dsimp only at h
    rcases hnd2 : nextDraw rs1 with ⟨qy, rs2⟩
    rw [hnd2] at h
    dsimp only at h
    split at h
    · obtain rfl : ((pickIndex qx 255 : Int), (pickIndex qy 255 : Int)) = p := by
        simpa using h
      assumption
    · exact ih rs2 h

theorem getRandomEmptyPosition_empty (g : Grid) (rs : RandStream) (p : Pos)
    (h : (g.getRandomEmptyPosition rs).1 = some p) : g.getType p.1 p.2 = .empty := by
  rw [Grid.getRandomEmptyPosition] at h
  exact getRandomEmptyPositionAux_empty g 100 rs p h

theorem countOf_countsBump_self (c : PopulationCounts) (t : EntityType)
    (h : t ≠ .empty) : countOf (countsBump c t) t = countOf c t + 1 := by
  cases t <;> simp_all [countsBump, countOf]

theorem countOf_countsBump_ne (c : PopulationCounts) (t t' : EntityType)
    (h : t' ≠ t) : countOf (countsBump c t) t' = countOf c t' := by
  cases t <;> cases t' <;> simp_all [countsBump, countOf]

theorem seedLoop_countOf (create : Int → Int → Entity) (k : EntityType)
    (hk : ∀ x y, entityType (create x y) = k) (n : Nat) (g : Grid) (rs : RandStream) :
    countOf ((seedLoop create n g rs).1.getCounts) k ≤ countOf g.getCounts k + n ∧
    (∀ k', k' ≠ k →
      countOf ((seedLoop create n g rs).1.getCounts) k' = countOf g.getCounts k') := by
  induction n generalizing g rs with
  | zero => simp [seedLoop]
  | succ n ih =>
    rw [seedLoop]
    rcases hp : g.getRandomEmptyPosition rs with ⟨pos, rs'⟩
    dsimp only
    rcases pos with _ | p
    · dsimp only
      obtain ⟨ih1, ih2⟩ := ih g rs'
      exact ⟨le_trans ih1 (by omega), ih2⟩
    · dsimp only
      have hempty : g.getType p.1 p.2 = .empty :=
        getRandomEmptyPosition_empty g rs p (by rw [hp])
      by_cases hv : isValidPosition p.1 p.2
      · have hset : (g.set p.1 p.2 (some (create p.1 p.2))).getCounts
            = countsBump g.getCounts (entityType (create p.1 p.2)) :=
          Grid.getCounts_set_of_empty g _ hv hempty
        obtain ⟨ih1, ih2⟩ := ih (g.set p.1 p.2 (some (create p.1 p.2))) rs'
        rw [hset, hk] at ih1 ih2
        have hkne : k ≠ .empty := hk 0 0 ▸ entityType_ne_empty (create 0 0)
        refine ⟨?_, fun k' hk' => ?_⟩
        · calc countOf ((seedLoop create n (g.set p.1 p.2 (some (create p.1 p.2))) rs').1.getCounts) k
              ≤ countOf (countsBump g.getCounts k) k + n := ih1
          _ = countOf g.getCounts k + 1 + n := by rw [countOf_countsBump_self _ _ hkne]
          _ = countOf g.getCounts k + (n + 1) := by omega
        · rw [ih2 k' hk', countOf_countsBump_ne _ _ _ hk']
      · rw [Grid.set_invalid _ _ _ _ (Bool.not_eq_true _ ▸ hv : isValidPosition p.1 p.2 = false)]
        obtain ⟨ih1, ih2⟩ := ih g rs'
        exact ⟨le_trans ih1 (by omega), ih2⟩

theorem seedPopulation_counts (g0 : Grid) (cfg : SimulationConfig) (rs : RandStream) :
    ((seedPopulation g0 cfg rs).1.getCounts).grass ≤ cfg.grass.initialCount ∧
    ((seedPopulation g0 cfg rs).1.getCounts).sheep ≤ cfg.sheep.initialCount ∧
    ((seedPopulation g0 cfg rs).1.getCounts).wolves ≤ cfg.wolf.initialCount := by
  rw [seedPopulation]
  dsimp only
  have hg0 : (Grid.resetAll g0).getCounts = ⟨0, 0, 0⟩ := Grid.getCounts_emptyGrid
  have l1 := seedLoop_countOf (fun x y => Entity.grassE (createGrass x y)) .grass
    (fun _ _ => rfl) cfg.grass.initialCount (Grid.resetAll g0) rs
  rw [hg0] at l1
  generalize hA : seedLoop (fun x y => Entity.grassE (createGrass x y))
    cfg.grass.initialCount (Grid.resetAll g0) rs = A
  rw [hA] at l1
  obtain ⟨gA, rsA⟩ := A
  dsimp only at l1 ⊢
  have l2 := seedLoop_countOf (fun x y => Entity.sheepE (createSheep x y)) .sheep
    (fun _ _ => rfl) cfg.sheep.initialCount gA rsA
  generalize hB : seedLoop (fun x y => Entity.sheepE (createSheep x y))
    cfg.sheep.initialCount gA rsA = B
  rw [hB] at l2
  obtain ⟨gB, rsB⟩ := B
  dsimp only at l2 ⊢
  have l3 := seedLoop_countOf (fun x y => Entity.wolfE (createWolf x y)) .wolf
    (fun _ _ => rfl) cfg.wolf.initialCount gB rsB
  generalize hC : seedLoop (fun x y => Entity.wolfE (createWolf x y))
    cfg.wolf.initialCount gB rsB = C
  rw [hC] at l3
  obtain ⟨gC, rsC⟩ := C
  dsimp only at l3 ⊢
  obtain ⟨b1, e1⟩ := l1
  obtain ⟨b2, e2⟩ := l2
  obtain ⟨b3, e3⟩ := l3
  refine ⟨?_, ?_, ?_⟩
  · have h3 := e3 .grass (by simp)
    have h2 := e2 .grass (by simp)
    simp only [countOf] at h3 h2 b1 ⊢
    omega
  · have h3 := e3 .sheep (by simp)
    have h1 := e1 .sheep (by simp)
    simp only [countOf] at h3 b2 h1 ⊢
    omega
  · have h2 := e2 .wolf (by simp)
    have h1 := e1 .wolf (by simp)
    simp only [countOf] at b3 h2 h1 ⊢
    omega


/-! Engine field-preservation lemmas. -/

theorem recordHistory_grid (s : EngineState) : (recordHistory s).grid = s.grid := rfl

theorem recordHistory_population (s : EngineState) :
    (recordHistory s).population = s.population := rfl

theorem recordHistory_isGameOver (s : EngineState) :
    (recordHistory s).isGameOver = s.isGameOver := rfl

theorem recordHistory_isRunning (s : EngineState) :
    (recordHistory s).isRunning = s.isRunning := rfl

theorem recordHistory_extinct (s : EngineState) :
    (recordHistory s).extinctPopulation = s.extinctPopulation := rfl

theorem updateCounts_grid (s : EngineState) : (updateCounts s).grid = s.grid := rfl

theorem updateCounts_population (s : EngineState) :
    (updateCounts s).population = s.grid.getCounts := rfl

theorem updateCounts_isGameOver (s : EngineState) :
    (updateCounts s).isGameOver = s.isGameOver := rfl

theorem updateCounts_isRunning (s : EngineState) :
    (updateCounts s).isRunning = s.isRunning := rfl

theorem updateCounts_extinct (s : EngineState) :
    (updateCounts s).extinctPopulation = s.extinctPopulation := rfl

theorem checkExtinction_grid (s : EngineState) : (checkExtinction s).grid = s.grid := by
  unfold checkExtinction
  split_ifs <;> rfl

theorem checkExtinction_population (s : EngineState) :
    (checkExtinction s).population = s.population := by
  unfold checkExtinction
  split_ifs <;> rfl

theorem tickPhases_isRunning (s : EngineState) (rs : RandStream) :
    (tickPhases s rs).1.isRunning = s.isRunning := rfl

theorem tickPhases_isGameOver (s : EngineState) (rs : RandStream) :
    (tickPhases s rs).1.isGameOver = s.isGameOver := rfl

theorem tickPhases_extinct (s : EngineState) (rs : RandStream) :
    (tickPhases s rs).1.extinctPopulation = s.extinctPopulation := rfl

theorem tickEngine_eq (s : EngineState) (rs : RandStream) :
    (tickEngine s rs).1 = recordHistory (checkExtinction (updateCounts (tickPhases s rs).1)) := by
  unfold tickEngine
  dsimp only
  rw [show HISTORY_INTERVAL = 1 from rfl, if_pos (Nat.mod_one _)]

theorem tickEngine_grid (s : EngineState) (rs : RandStream) :
    (tickEngine s rs).1.grid = (tickPhases s rs).1.grid := by
  rw [tickEngine_eq, recordHistory_grid, checkExtinction_grid, updateCounts_grid]

theorem initEngine_population (s : EngineState) (rs : RandStream) :
    (initEngine s rs).1.population = (seedPopulation s.grid s.config rs).1.getCounts := by
  unfold initEngine
  dsimp only
  rw [recordHistory_population, updateCounts_population]

theorem resetEngine_population (s : EngineState) (cfg : SimulationConfig) (rs : RandStream) :
    (resetEngine s (some cfg) rs).1.population
      = (seedPopulation s.grid cfg rs).1.getCounts := by
  unfold resetEngine
  rw [initEngine_population]
  dsimp only
  rw [Option.getD_some]

/-- C3 (amended): after `reset(config)` the population counts are
componentwise at most the configured initial counts, for every
configuration and every draw sequence; equality can fail even when the
initial counts sum to fewer than the grid's cells, because each placement
samples at most 100 random cells and silently gives up. -/
theorem C3_seeding_counts (s : EngineState) (cfg : SimulationConfig) (rs : RandStream) :
    (getPopulationCounts (resetEngine s (some cfg) rs).1).grass ≤ cfg.grass.initialCount ∧
    (getPopulationCounts (resetEngine s (some cfg) rs).1).sheep ≤ cfg.sheep.initialCount ∧
    (getPopulationCounts (resetEngine s (some cfg) rs).1).wolves ≤ cfg.wolf.initialCount := by
  have hpop : getPopulationCounts (resetEngine s (some cfg) rs).1
      = (seedPopulation s.grid cfg rs).1.getCounts := by
    rw [getPopulationCounts, resetEngine_population]
  rw [hpop]
  exact seedPopulation_counts s.grid cfg rs

/-- C7: at the end of every tick the stored population equals a fresh full
scan of the grid, and the extinction check reports, in fixed priority
order, grass when its count is 0, else sheep, else wolves, ending the run
and stopping it; when no count is 0 the end-of-run state is untouched, so
exactly one cause is ever reported and a kind reaching 0 during a tick is
detected in the same tick. -/
theorem C7_extinction_priority (s : EngineState) (rs : RandStream) :
    ((tickEngine s rs).1.population = (tickEngine s rs).1.grid.getCounts) ∧
    ((tickEngine s rs).1.population.grass = 0 →
      (tickEngine s rs).1.isGameOver = true ∧
      (tickEngine s rs).1.extinctPopulation = some .grass ∧
      (tickEngine s rs).1.isRunning = false) ∧
    ((tickEngine s rs).1.population.grass ≠ 0 → (tickEngine s rs).1.population.sheep = 0 →
      (tickEngine s rs).1.isGameOver = true ∧
      (tickEngine s rs).1.extinctPopulation = some .sheep ∧
      (tickEngine s rs).1.isRunning = false) ∧
    ((tickEngine s rs).1.population.grass ≠ 0 → (tickEngine s rs).1.population.sheep ≠ 0 →
      (tickEngine s rs).1.population.wolves = 0 →
      (tickEngine s rs).1.isGameOver = true ∧
      (tickEngine s rs).1.extinctPopulation = some .wolves ∧
      (tickEngine s rs).1.isRunning = false) ∧
    ((tickEngine s rs).1.population.grass ≠ 0 → (tickEngine s rs).1.population.sheep ≠ 0 →
      (tickEngine s rs).1.population.wolves ≠ 0 →
      (tickEngine s rs).1.isGameOver = s.isGameOver ∧
      (tickEngine s rs).1.extinctPopulation = s.extinctPopulation) := by
  have hpe : (tickEngine s rs).1.population
      = (updateCounts (tickPhases s rs).1).population := by
    rw [tickEngine_eq, recordHistory_population, checkExtinction_population]
  refine ⟨?_, ?_, ?_, ?_, ?_⟩
  · rw [tickEngine_eq, recordHistory_population, checkExtinction_population,
      recordHistory_grid, checkExtinction_grid, updateCounts_grid, updateCounts_population]
  · intro h
    rw [hpe] at h
    rw [tickEngine_eq, recordHistory_isGameOver, recordHistory_extinct, recordHistory_isRunning]
    simp [checkExtinction, h]
  · intro h1 h2
    rw [hpe] at h1 h2
    rw [tickEngine_eq, recordHistory_isGameOver, recordHistory_extinct, recordHistory_isRunning]
    simp [checkExtinction, h1, h2]
  · intro h1 h2 h3
    rw [hpe] at h1 h2 h3
    rw [tickEngine_eq, recordHistory_isGameOver, recordHistory_extinct, recordHistory_isRunning]
    simp [checkExtinction, h1, h2, h3]
  · intro h1 h2 h3
    rw [hpe] at h1 h2 h3
    rw [tickEngine_eq, recordHistory_isGameOver, recordHistory_extinct]
    have hnone : checkExtinction (updateCounts (tickPhases s rs).1)
        = updateCounts (tickPhases s rs).1 := by
      simp [checkExtinction, h1, h2, h3]
    rw [hnone, updateCounts_isGameOver, updateCounts_extinct,
      tickPhases_isGameOver, tickPhases_extinct]
    exact ⟨rfl, rfl⟩


theorem startEngine_isGameOver (s : EngineState) :
    (startEngine s).isGameOver = s.isGameOver := rfl

theorem startEngine_isRunning (s : EngineState) :
    (startEngine s).isRunning = true := rfl

theorem tickEngine_isRunning_false (s : EngineState) (rs : RandStream)
    (h : s.isRunning = false) : (tickEngine s rs).1.isRunning = false := by
  rw [tickEngine_eq, recordHistory_isRunning]
  unfold checkExtinction
  split_ifs
  · rfl
  · rfl
  · rfl
  · rw [updateCounts_isRunning, tickPhases_isRunning]
    exact h

theorem tickEngine_isGameOver_true (s : EngineState) (rs : RandStream)
    (h : s.isGameOver = true) : (tickEngine s rs).1.isGameOver = true := by
  rw [tickEngine_eq, recordHistory_isGameOver]
  unfold checkExtinction
  split_ifs
  · rfl
  · rfl
  · rfl
  · rw [updateCounts_isGameOver, tickPhases_isGameOver]
    exact h

/-- C4 (amended): when a tick ends the run, it also stops it, and
`isRunning` then stays false under any sequence of `tick()`, `pause()` and
`setGameSpeed()` calls, while `hasEnded()` stays true under every public
operation short of `reset()`; however `start()` (and `togglePause()` from
a paused state) set `isRunning` to true even after extinction, so the
latch does not survive sequences containing them. -/
theorem C4_extinction_latch :
    (∀ (s : EngineState) (rs : RandStream), s.isGameOver = false →
      (tickEngine s rs).1.isGameOver = true → (tickEngine s rs).1.isRunning = false) ∧
    (∀ (s : EngineState) (ops : List EngineOp), s.isRunning = false →
      (∀ op ∈ ops, NonStarting op) → (applyOps s ops).isRunning = false) ∧
    (∀ (s : EngineState) (op : EngineOp), s.isGameOver = true →
      (applyOp s op).isGameOver = true) ∧
    (∀ s : EngineState, (startEngine s).isRunning = true ∧
      (startEngine s).isGameOver = s.isGameOver) := by
  refine ⟨?_, ?_, ?_, fun s => ⟨rfl, rfl⟩⟩
  · intro s rs h0 h1
    rw [tickEngine_eq, recordHistory_isRunning]
    rw [tickEngine_eq, recordHistory_isGameOver] at h1
    unfold checkExtinction at h1 ⊢
    split_ifs at h1 ⊢
    · rfl
    · rfl
    · rfl
    · rw [updateCounts_isGameOver, tickPhases_isGameOver, h0] at h1
      exact absurd h1 (by simp)
  · intro s ops
    induction ops generalizing s with
    | nil => exact fun h _ => h
    | cons op ops ih =>
      intro h hall
      have hop : NonStarting op := hall op (List.mem_cons_self _ _)
      have hrest : ∀ o ∈ ops, NonStarting o := fun o ho => hall o (List.mem_cons_of_mem _ ho)
      rw [applyOps, List.foldl_cons, ← applyOps]
      refine ih (applyOp s op) ?_ hrest
      cases op with
      | tickOp rs => exact tickEngine_isRunning_false s rs h
      | startOp => exact hop.elim
      | pauseOp => rfl
      | toggleOp => exact hop.elim
      | speedOp q => exact h
  · intro s op h
    cases op with
    | tickOp rs => exact tickEngine_isGameOver_true s rs h
    | startOp => exact h
    | pauseOp => exact h
    | toggleOp => exact h
    | speedOp q => exact h

/-- C4 counterexample: with every initial count 0, the first tick ends the
run (grass extinct) and stops it, but a subsequent `start()` makes
`isRunning()` true again while `hasEnded()` is still true. -/
theorem C4_counterexample :
    hasEnded (tickEngine engineC4 []).1 = true ∧
    (tickEngine engineC4 []).1.isRunning = false ∧
    hasEnded (startEngine (tickEngine engineC4 []).1) = true ∧
    (startEngine (tickEngine engineC4 []).1).isRunning = true := by
  have hpop : (updateCounts (tickPhases engineC4 []).1).population = ⟨0, 0, 0⟩ := by
    rw [updateCounts_population]
    have hgr : (tickPhases engineC4 []).1.grid = emptyGrid := rfl
    rw [hgr, Grid.getCounts_emptyGrid]
  refine ⟨?_, ?_, ?_, startEngine_isRunning _⟩
  · rw [hasEnded, tickEngine_eq, recordHistory_isGameOver]
    simp [checkExtinction, hpop]
  · rw [tickEngine_eq, recordHistory_isRunning]
    simp [checkExtinction, hpop]
  · rw [hasEnded, startEngine_isGameOver, tickEngine_eq, recordHistory_isGameOver]
    simp [checkExtinction, hpop]




section ConcreteEval3

attribute [local semireducible] Rat.mul Rat.add Rat.sub Rat.inv Grid.getRandomEmptyPosition

/-- C3 counterexample: asking for 2 grass (well under the grid's 65025
cells) with the all-zeros draw stream places the first grass at the
origin, then all 100 placement attempts for the second grass hit the
origin again, so seeding gives up and the counts after `reset` are
`{1, 0, 0}`, not `{2, 0, 0}`. -/
theorem C3_counterexample :
    cfgC3.grass.initialCount + cfgC3.sheep.initialCount + cfgC3.wolf.initialCount < GRID_SIZE ∧
    getPopulationCounts (resetEngine (mkEngine cfgC3) (some cfgC3) []).1 ≠
      ⟨cfgC3.grass.initialCount, cfgC3.sheep.initialCount, cfgC3.wolf.initialCount⟩ := by
  refine ⟨by decide, ?_⟩
  rw [getPopulationCounts, resetEngine_population]
  have hseed : (seedPopulation (mkEngine cfgC3).grid cfgC3 []).1 = gridC3 := rfl
  rw [hseed]
  have hcount : gridC3.getCounts = ⟨1, 0, 0⟩ := by
    rw [gridC3, Grid.getCounts_set_of_empty emptyGrid _ (by decide) (by decide),
      Grid.getCounts_emptyGrid]
    rfl
  rw [hcount]
  decide

end ConcreteEval3

theorem mem_getEmptyNeighbors_getType {g : Grid} {x y : Int} {p : Pos}
    (h : p ∈ getEmptyNeighbors g x y) : g.getType p.1 p.2 = .empty := by
  unfold getEmptyNeighbors at h
  exact of_decide_eq_true (List.mem_filter.mp h).2

theorem getRandomEmptyNeighbor_mem {g : Grid} {x y : Int} {rs : RandStream} {p : Pos}
    (hrs : ValidStream rs)
    (h : (g.getRandomEmptyNeighbor x y rs).1 = some p) :
    p ∈ getEmptyNeighbors g x y := by
  unfold Grid.getRandomEmptyNeighbor at h
  dsimp only at h
  split_ifs at h with hlen
  obtain ⟨h0, h1⟩ := validStream_head hrs
  have hl : 0 < (getEmptyNeighbors g x y).length := Nat.pos_of_ne_zero hlen
  have hm : List.getD (getEmptyNeighbors g x y)
      (pickIndex (nextDraw rs).1 (getEmptyNeighbors g x y).length) ((0 : Int), (0 : Int)) ∈
        getEmptyNeighbors g x y :=
    getD_mem_of_lt (pickIndex_lt h0 h1 hl)
  have h2 : some (List.getD (getEmptyNeighbors g x y)
      (pickIndex (nextDraw rs).1 (getEmptyNeighbors g x y).length) ((0 : Int), (0 : Int))) =
        some p := h
  rw [← Option.some.inj h2]
  exact hm

/-- C1 (amended): during `updateSheep` the grid still holds the parent on
its old cell, so the old-position spawn branch never fires; whenever an
eating sheep breeds and produces an offspring, the newborn is a fresh
sheep placed on a random empty neighbor of the parent's NEW position (in
particular not on the parent's old cell), and the parent's `foodEaten` is
reset to 0. -/
theorem C1_sheep_breeding_placement (sheep : SheepEntity) (g : Grid)
    (config : SimulationConfig) (rs : RandStream)
    (hOld : g.getType sheep.x sheep.y ≠ .empty) (hrs : ValidStream rs) :
    ∀ sp, (updateSheep sheep g config rs).2.1.spawn = some sp →
      ((sp.x, sp.y) ∈ getEmptyNeighbors g (updateSheep sheep g config rs).1.x
          (updateSheep sheep g config rs).1.y ∧
        ¬(sp.x = sheep.x ∧ sp.y = sheep.y) ∧
        (updateSheep sheep g config rs).1.foodEaten = 0 ∧
        sp = createSheep sp.x sp.y) := by
  unfold updateSheep
  dsimp only
  rcases hsd : shouldDieOfOldAge ((sheep.age + 1 : Nat) : ℚ) config.sheep.lifeExpectancy rs
    with ⟨dead, rs1⟩
  dsimp only
  have hv1 : ValidStream rs1 := by
    have h := @validStream_shouldDie ((sheep.age + 1 : Nat) : ℚ) config.sheep.lifeExpectancy rs hrs
    rw [hsd] at h
    exact h
  cases dead with
  | true => simp
  | false =>
    by_cases hst : config.sheep.starvationTime ≤ sheep.ticksSinceLastMeal + 1
    · simp [hst]
    · simp only [Bool.false_eq_true, if_false, if_neg hst]
      generalize List.filter (fun p => g.getType p.1 p.2 == EntityType.grass)
        (getNeighborPositions sheep.x sheep.y) = GN
      by_cases hg : 0 < GN.length
      · rw [if_pos hg]
        generalize GN.getD (pickIndex (nextDraw rs1).1 GN.length) ((0 : Int), (0 : Int)) = T
        by_cases hb : config.sheep.breedThreshold ≤ sheep.foodEaten + 1
        · rw [if_pos hb, if_neg hOld]
          have hv2 : ValidStream (nextDraw rs1).2 := validStream_tail hv1
          rcases hrn : (g.getRandomEmptyNeighbor T.1 T.2 (nextDraw rs1).2).1 with _ | p
          · dsimp only
            simp
          · dsimp only
            intro sp hsp
            obtain rfl := Option.some.inj hsp
            have hmem : p ∈ getEmptyNeighbors g T.1 T.2 := getRandomEmptyNeighbor_mem hv2 hrn
            have hpe : g.getType p.1 p.2 = .empty := mem_getEmptyNeighbors_getType hmem
            refine ⟨?_, ?_, rfl, rfl⟩
            · exact hmem
            · rintro ⟨hx, hy⟩
              dsimp only [createSheep] at hx hy
              rw [hx, hy] at hpe
              exact hOld hpe
        · rw [if_neg hb]
          dsimp only
          simp
      · rw [if_neg hg]
        rcases hfc : g.findClosestInRadius sheep.x sheep.y config.sheep.grazingRadius
            EntityType.grass with _ | cg
        · dsimp only
          split_ifs <;> simp
        · dsimp only
          generalize sheep.x + (entityX cg.1 - sheep.x).sign = nX
          generalize sheep.y + (entityY cg.1 - sheep.y).sign = nY
          by_cases hv : isValidPosition nX nY = true
          · rw [if_pos hv]
            by_cases ht : g.getType nX nY = EntityType.grass
            · rw [if_pos ht]
              by_cases hb : config.sheep.breedThreshold ≤ sheep.foodEaten + 1
              · rw [if_pos hb, if_neg hOld]
                rcases hrn : (g.getRandomEmptyNeighbor nX nY rs1).1 with _ | p
                · dsimp only
                  simp
                · dsimp only
                  intro sp hsp
                  obtain rfl := Option.some.inj hsp
                  have hmem : p ∈ getEmptyNeighbors g nX nY :=
                    getRandomEmptyNeighbor_mem hv1 hrn
                  have hpe : g.getType p.1 p.2 = .empty := mem_getEmptyNeighbors_getType hmem
                  refine ⟨?_, ?_, rfl, rfl⟩
                  · exact hmem
                  · rintro ⟨hx, hy⟩
                    dsimp only [createSheep] at hx hy
                    rw [hx, hy] at hpe
                    exact hOld hpe
              · rw [if_neg hb]
                dsimp only
                simp
            · rw [if_neg ht]
              split_ifs <;> simp
          · rw [if_neg hv]
            dsimp only
            simp

section ConcreteEval4

attribute [local semireducible] Rat.mul Rat.add Rat.sub Rat.inv

/-- Witness for C1: sheep at `(5,5)` surrounded by grass, breed threshold
1, draws all 0; the offspring appears at `(3,3)`, an empty neighbor of the
parent's new cell `(4,4)`. -/
theorem C1_witness :
    (gridC1.getType 5 5 ≠ EntityType.empty ∧ ValidStream []) ∧
    (updateSheep (createSheep 5 5) gridC1 cfgC1 []).2.1.spawn = some (createSheep 3 3) ∧
    (((createSheep 3 3).x, (createSheep 3 3).y) ∈ getEmptyNeighbors gridC1
        (updateSheep (createSheep 5 5) gridC1 cfgC1 []).1.x
        (updateSheep (createSheep 5 5) gridC1 cfgC1 []).1.y ∧
      ¬((createSheep 3 3).x = (createSheep 5 5).x ∧
        (createSheep 3 3).y = (createSheep 5 5).y) ∧
      (updateSheep (createSheep 5 5) gridC1 cfgC1 []).1.foodEaten = 0 ∧
      createSheep 3 3 = createSheep (createSheep 3 3).x (createSheep 3 3).y) :=
  ⟨⟨by decide, fun q hq => absurd hq (List.not_mem_nil q)⟩, by decide,
    C1_sheep_breeding_placement (createSheep 5 5) gridC1 cfgC1 []
      (by decide) (fun q hq => absurd hq (List.not_mem_nil q)) (createSheep 3 3) (by decide)⟩

/-- C1 counterexample: in the claim's own scenario (sheep at `(5,5)`, all
8 neighbors grass, breed threshold 1), after one `tick()` the old `(5,5)`
cell is empty and holds no entity, so no newborn sheep is placed there. -/
theorem C1_counterexample :
    cfgC1.sheep.breedThreshold = 1 ∧
    engineC1.grid.getType 5 5 = EntityType.sheep ∧
    (∀ p ∈ ringC1, engineC1.grid.getType p.1 p.2 = EntityType.grass) ∧
    (tickEngine engineC1 []).1.grid.getType 5 5 = EntityType.empty ∧
    (tickEngine engineC1 []).1.grid.get 5 5 = none := by
  refine ⟨rfl, by decide, by decide, ?_, ?_⟩
  · rw [tickEngine_grid]
    decide
  · rw [tickEngine_grid]
    decide

end ConcreteEval4

/-- C10: whenever a live wolf's update moves it onto a grass cell, the
wolf phase of `tick()` commits the wolf over that cell (replacing the
grass record), and clearing the cell when the wolf later leaves yields an
empty cell with no entity, so the trampled grass is gone for good. -/
theorem C10_wolf_tramples_grass (we we' : WolfEntity) (g : Grid)
    (config : SimulationConfig) (nw : List WolfEntity) (rs : RandStream)
    (hNodup : (g.entities.map Prod.fst).Nodup)
    (hup : (updateWolf we g config rs).1 = we')
    (hAlive : (updateWolf we g config rs).2.1.alive = true)
    (hMoved : ¬(we'.x = we.x ∧ we'.y = we.y))
    (hGrass : g.getType we'.x we'.y = EntityType.grass)
    (hv : isValidPosition we'.x we'.y = true) :
    (wolfPhaseStep config (g, nw, rs) we).1.getType we'.x we'.y = EntityType.wolf ∧
    (wolfPhaseStep config (g, nw, rs) we).1.get we'.x we'.y = some (Entity.wolfE we') ∧
    ((wolfPhaseStep config (g, nw, rs) we).1.clear we'.x we'.y).getType we'.x we'.y
      = EntityType.empty ∧
    ((wolfPhaseStep config (g, nw, rs) we).1.clear we'.x we'.y).get we'.x we'.y = none := by
  have hkey : (wolfPhaseStep config (g, nw, rs) we).1 =
      (g.clear we.x we.y).set we'.x we'.y (some (.wolfE we')) := by
    unfold wolfPhaseStep
    dsimp only
    rcases hu : updateWolf we g config rs with ⟨we2, res, rs2⟩
    rw [hu] at hup hAlive
    dsimp only at hup hAlive ⊢
    subst hup
    rw [hAlive]
    have hcond : ((!true) = true) ∨ we2.x ≠ we.x ∨ we2.y ≠ we.y := by
      rcases not_and_or.mp hMoved with h | h
      · exact Or.inr (Or.inl h)
      · exact Or.inr (Or.inr h)
    rw [if_pos hcond, if_neg (by simp)]
  refine ⟨?_, ?_, ?_, ?_⟩
  · rw [hkey]
    exact Grid.getType_set_self _ _ hv
  · rw [hkey]
    exact Grid.get_set_self _ _ hv
  · rw [hkey]
    exact Grid.getType_clear_self _ _ _
  · rw [hkey]
    exact Grid.get_clear_self _ _ _
      (Grid.set_keys_nodup _ _ _ _ (Grid.set_keys_nodup _ _ _ _ hNodup))

section ConcreteEval5

attribute [local semireducible] Rat.mul Rat.add Rat.sub Rat.inv

/-- Witness for C10: the wolf at `(10,10)` hunting the sheep at `(12,12)`
steps onto the grass at `(11,11)`; after the phase commit the cell holds
the wolf, and clearing it leaves it empty. -/
theorem C10_witness :
    ((gridC10.entities.map Prod.fst).Nodup ∧
      (updateWolf wolfC10 gridC10 cfgC1 []).1 = ⟨11, 11, 1, 0, 1⟩ ∧
      (updateWolf wolfC10 gridC10 cfgC1 []).2.1.alive = true ∧
      gridC10.getType 11 11 = EntityType.grass) ∧
    ((wolfPhaseStep cfgC1 (gridC10, [], []) wolfC10).1.getType 11 11 = EntityType.wolf ∧
      (wolfPhaseStep cfgC1 (gridC10, [], []) wolfC10).1.get 11 11 =
        some (Entity.wolfE ⟨11, 11, 1, 0, 1⟩) ∧
      ((wolfPhaseStep cfgC1 (gridC10, [], []) wolfC10).1.clear 11 11).getType 11 11
        = EntityType.empty ∧
      ((wolfPhaseStep cfgC1 (gridC10, [], []) wolfC10).1.clear 11 11).get 11 11 = none) :=
  ⟨⟨by decide, by decide, by decide, by decide⟩,
    C10_wolf_tramples_grass wolfC10 ⟨11, 11, 1, 0, 1⟩ gridC10 cfgC1 [] []
      (by decide) (by decide) (by decide) (by decide) (by decide) (by decide)⟩

end ConcreteEval5

end Life
